import Mathlib

set_option maxRecDepth 8000

/-!
Verification of the Jarvis Live voice-assistant backend gateway.

This file shallowly embeds the Python source of the repository
(`src/_python/src/...`) into Lean 4 and proves or refutes the frozen
claims about it.  Machine floats are modelled as exact rationals,
wall-clock instants are explicit `ℚ` parameters, Python dicts are
insertion-ordered association lists, and exceptions are `Except` values.
External backends (the sklearn TF-IDF vectorizer, the stdlib `re`
engine, `hashlib` digests) are abstracted as function parameters, as the
specification treats them as pluggable capability interfaces; everything
else is translated directly from the source.
-/

/- ### Association-list model of Python dicts (insertion ordered) -/

/-- Look up the value stored under `k`, the first binding wins (a Python
dict has unique keys, so the model keeps at most one binding per key). -/
def alookup {β : Type} (l : List (String × β)) (k : String) : Option β :=
  match l with
  | [] => none
  | (k', v) :: rest => if k' = k then some v else alookup rest k

/-- `d[k] = v` on a Python dict: replace the value in place if the key is
present, otherwise append the new binding (insertion order preserved). -/
def aset {β : Type} (l : List (String × β)) (k : String) (v : β) :
    List (String × β) :=
  match l with
  | [] => [(k, v)]
  | (k', v') :: rest =>
    if k' = k then (k', v) :: rest else (k', v') :: aset rest k v

/-- `d.update(new)`: assign every binding of `new` into `d` in order. -/
def adictUpdate {β : Type} (l new : List (String × β)) : List (String × β) :=
  new.foldl (fun acc kv => aset acc kv.1 kv.2) l

/- ### String utilities mirroring Python primitives -/

/-- `l₁.isPrefixOf l₂` implies `l₁` is no longer than `l₂`. -/
theorem isPrefixOf_length_le {l₁ l₂ : List Char} (h : l₁.isPrefixOf l₂) :
    l₁.length ≤ l₂.length := by
  induction l₁ generalizing l₂ with
  | nil => simp
  | cons a t ih =>
    cases l₂ with
    | nil => simp [List.isPrefixOf] at h
    | cons b t2 =>
      simp only [List.isPrefixOf, Bool.and_eq_true] at h
      have := ih h.2
      simp only [List.length_cons]
      omega

/-- `l.dropWhile p` is no longer than `l`. -/
theorem dropWhile_length_le (p : Char → Bool) (l : List Char) :
    (l.dropWhile p).length ≤ l.length := by
  induction l with
  | nil => simp
  | cons c rest ih =>
    by_cases h : p c <;> simp [List.dropWhile, h] <;> omega

/-- Worker for `strContains`. -/
def strContainsAux (needle : List Char) : List Char → Bool
  | [] => needle.isEmpty
  | c :: rest => needle.isPrefixOf (c :: rest) || strContainsAux needle rest

/-- Python `needle in haystack` substring containment. -/
def strContains (haystack needle : String) : Bool :=
  strContainsAux needle.toList haystack.toList

/-- Python `s.count(sub)` for a non-empty `sub`: number of non-overlapping
occurrences, scanning left to right.  The `fuel` argument (the scan
length, consumed one position or one match at a time) makes the
recursion structural; `countSubstr` supplies enough fuel for the whole
string, so the fuel-exhausted arm is never taken. -/
def countSubstrAux (needle : List Char) : Nat → List Char → Nat
  | _, [] => 0
  | 0, _ => 0
  | fuel + 1, c :: rest =>
    if needle ≠ [] ∧ needle.isPrefixOf (c :: rest) then
      1 + countSubstrAux needle fuel ((c :: rest).drop needle.length)
    else
      countSubstrAux needle fuel rest

def countSubstr (haystack needle : String) : Nat :=
  countSubstrAux needle.toList haystack.toList.length haystack.toList

/-- Python string slicing `s[:n]`. -/
def strTake (n : Nat) (s : String) : String :=
  String.mk (s.toList.take n)

/-- Python `s.lower()` (ASCII range, all this code base needs). -/
def pyLower (s : String) : String :=
  String.mk (s.toList.map Char.toLower)

/-- Python `s.replace(pattern, replacement)` for a non-empty `pattern`:
replace every non-overlapping occurrence, left to right.  Fuel makes
the recursion structural; `pyReplace` supplies the string length. -/
def pyReplaceAux (pat rep : List Char) : Nat → List Char → List Char
  | _, [] => []
  | 0, s => s
  | fuel + 1, c :: rest =>
    if pat ≠ [] ∧ pat.isPrefixOf (c :: rest) then
      rep ++ pyReplaceAux pat rep fuel ((c :: rest).drop pat.length)
    else
      c :: pyReplaceAux pat rep fuel rest

def pyReplace (s pat rep : String) : String :=
  String.mk (pyReplaceAux pat.toList rep.toList s.toList.length s.toList)

/-- Word characters in the sense of the `re` module's `\w` (ASCII range,
which covers every string this code base matches against). -/
def isWordChar (c : Char) : Bool :=
  c.isAlphanum || c == '_'

/-- Whitespace in the sense of the `re` module's `\s` (ASCII range). -/
def isPySpace (c : Char) : Bool :=
  c == ' ' || c == '\t' || c == '\n' || c == '\r' || c == '\x0b' || c == '\x0c'

/-- Worker for `reSubWord`: delete every non-overlapping occurrence of the
word `w` that sits between `\b` boundaries, scanning the original string
left to right.  `prev` is the character just before the scan position in
the original string (`none` at the start of the string).  The `fuel`
argument (consumed one position or one match at a time) makes the
recursion structural; `reSubWord` supplies the string length as fuel, so
the fuel-exhausted arm is never taken. -/
def reSubWordAux (w : List Char) : Nat → Option Char → List Char → List Char
  | _, _, [] => []
  | 0, _, s => s
  | fuel + 1, prev, c :: rest =>
    if w ≠ [] ∧ w.isPrefixOf (c :: rest) ∧
        (match prev with | none => true | some p => !isWordChar p) = true ∧
        (match (c :: rest).drop w.length with
         | [] => true
         | d :: _ => !isWordChar d) = true then
      reSubWordAux w fuel w.getLast? ((c :: rest).drop w.length)
    else
      c :: reSubWordAux w fuel (some c) rest

/-- Python `re.sub(r"\b" + word + r"\b", "", text)` for a literal `word`
made of word characters: remove whole-word occurrences. -/
def reSubWord (word text : String) : String :=
  String.mk (reSubWordAux word.toList text.toList.length none text.toList)

/-- Python `re.search(r"\b" + phrase + r"\b", text)` viewed as a Boolean:
is there an occurrence of the literal `phrase` between word boundaries? -/
def containsWordAux (w : List Char) (prev : Option Char) : List Char → Bool
  | [] => false
  | c :: rest =>
    if w ≠ [] ∧ w.isPrefixOf (c :: rest) ∧
        (match prev with | none => true | some p => !isWordChar p) = true ∧
        (match (c :: rest).drop w.length with
         | [] => true
         | d :: _ => !isWordChar d) = true then
      true
    else
      containsWordAux w (some c) rest

def containsWord (phrase text : String) : Bool :=
  containsWordAux phrase.toList none text.toList

/-- Collapse every maximal whitespace run into one space
(`re.sub(r"\s+", " ", text)`): the Boolean records whether the previous
character was whitespace (a space is emitted only for the first
character of each run). -/
def collapseWsAux : Bool → List Char → List Char
  | _, [] => []
  | prevSpace, c :: rest =>
    if isPySpace c then
      if prevSpace then collapseWsAux true rest
      else ' ' :: collapseWsAux true rest
    else c :: collapseWsAux false rest

def collapseWs (s : String) : String :=
  String.mk (collapseWsAux false s.toList)

/-- Python `s.strip()`. -/
def pyStrip (s : String) : String :=
  String.mk ((s.toList.dropWhile isPySpace).reverse.dropWhile isPySpace
    |>.reverse)

/-- Python `s.split()`: split on whitespace runs, dropping empty pieces. -/
def pySplitAux : List Char → List Char → List String
  | acc, [] => if acc.isEmpty then [] else [String.mk acc.reverse]
  | acc, c :: rest =>
    if isPySpace c then
      if acc.isEmpty then pySplitAux [] rest
      else String.mk acc.reverse :: pySplitAux [] rest
    else
      pySplitAux (c :: acc) rest

def pySplit (s : String) : List String :=
  pySplitAux [] s.toList

/- ### `ClassificationResult.confidence_level` (voice_classifier.py) -/

/-- `CommandCategory` enum of `voice_classifier.py`, in declaration
order (the order Python iterates the enum in). -/
inductive CommandCategory where
  | general_conversation
  | document_generation
  | email_management
  | calendar_scheduling
  | web_search
  | system_control
  | file_management
  | task_management
  | weather_info
  | news_briefing
  | calculations
  | translations
  | reminders
  | unknown
deriving DecidableEq, Repr

/-- The `.value` string of each `CommandCategory` member. -/
def CommandCategory.pyValue : CommandCategory → String
  | .general_conversation => "general_conversation"
  | .document_generation => "document_generation"
  | .email_management => "email_management"
  | .calendar_scheduling => "calendar_scheduling"
  | .web_search => "web_search"
  | .system_control => "system_control"
  | .file_management => "file_management"
  | .task_management => "task_management"
  | .weather_info => "weather_info"
  | .news_briefing => "news_briefing"
  | .calculations => "calculations"
  | .translations => "translations"
  | .reminders => "reminders"
  | .unknown => "unknown"

/-- Iteration order of `for category in CommandCategory`. -/
def CommandCategory.all : List CommandCategory :=
  [.general_conversation, .document_generation, .email_management,
   .calendar_scheduling, .web_search, .system_control, .file_management,
   .task_management, .weather_info, .news_briefing, .calculations,
   .translations, .reminders, .unknown]

/-- `IntentConfidence` enum of `voice_classifier.py`. -/
inductive IntentConfidence where
  | high
  | medium
  | low
  | very_low
deriving DecidableEq, Repr

/-- The `confidence_level` property of `ClassificationResult`
(`voice_classifier.py`): confidence values are modelled as exact
rationals. -/
def confidence_level (confidence : ℚ) : IntentConfidence :=
  if confidence > 0.8 then .high
  else if confidence > 0.5 then .medium
  else if confidence > 0.3 then .low
  else .very_low

/-- The `requires_confirmation` property of `ClassificationResult`. -/
def requires_confirmation (confidence : ℚ) (category : CommandCategory) :
    Bool :=
  confidence < 0.7 || category == .unknown

/-- Claim C7: the derived `confidence_level` of every
`ClassificationResult` partitions the confidence range `[0,1]` exactly at
the thresholds `0.3`, `0.5` and `0.8` into the four levels very-low, low,
medium and high, so that every confidence value in `[0,1]` maps to
exactly one level. -/
theorem c7_confidence_level_partition (c : ℚ) (h0 : 0 ≤ c) (h1 : c ≤ 1) :
    (confidence_level c = .very_low ↔ 0 ≤ c ∧ c ≤ 0.3) ∧
    (confidence_level c = .low ↔ 0.3 < c ∧ c ≤ 0.5) ∧
    (confidence_level c = .medium ↔ 0.5 < c ∧ c ≤ 0.8) ∧
    (confidence_level c = .high ↔ 0.8 < c ∧ c ≤ 1) := by
  have hvl : confidence_level c = .very_low ↔ 0 ≤ c ∧ c ≤ 0.3 := by
    unfold confidence_level
    split_ifs with hA hB hC <;> constructor <;> intro h <;>
      first
        | rfl
        | (exact absurd h (by decide))
        | (exact ⟨by linarith, by linarith⟩)
        | (exact absurd h (by push_neg; intro; linarith))
  have hlo : confidence_level c = .low ↔ 0.3 < c ∧ c ≤ 0.5 := by
    unfold confidence_level
    split_ifs with hA hB hC <;> constructor <;> intro h <;>
      first
        | rfl
        | (exact absurd h (by decide))
        | (exact ⟨by linarith, by linarith⟩)
        | (exact absurd h (by push_neg; intro; linarith))
  have hme : confidence_level c = .medium ↔ 0.5 < c ∧ c ≤ 0.8 := by
    unfold confidence_level
    split_ifs with hA hB hC <;> constructor <;> intro h <;>
      first
        | rfl
        | (exact absurd h (by decide))
        | (exact ⟨by linarith, by linarith⟩)
        | (exact absurd h (by push_neg; intro; linarith))
  have hhi : confidence_level c = .high ↔ 0.8 < c ∧ c ≤ 1 := by
    unfold confidence_level
    split_ifs with hA hB hC <;> constructor <;> intro h <;>
      first
        | rfl
        | (exact absurd h (by decide))
        | (exact ⟨by linarith, by linarith⟩)
        | (exact absurd h (by push_neg; intro; linarith))
  exact ⟨hvl, hlo, hme, hhi⟩

/-- Witness for C7 at the concrete confidence `0.65`. -/
theorem c7_confidence_level_partition_witness :
    (confidence_level 0.65 = .medium ↔ (0.5:ℚ) < 0.65 ∧ (0.65:ℚ) ≤ 0.8) :=
  (c7_confidence_level_partition 0.65 (by norm_num) (by norm_num)).2.2.1

/- ### MCP bridge (`mcp_bridge.py`) — claim C1 -/

/-- `MCPServerStatus` pydantic model of `mcp_bridge.py`. -/
structure MCPServerStatus where
  name : String
  status : String
  last_ping : Option ℚ := none
  error_message : Option String := none
  capabilities : List String := []

/-- A tool server handle as the bridge sees it: the set of command
methods the object defines (what `hasattr(server, command)` inspects),
the result of invoking such a method (`await method(**params)`, which
may raise), and the result of `await server.start()`. -/
structure MCPServer where
  commands : List String
  run : String → List (String × String) → Except String String
  startResult : Except String Unit

/-- The `MCPBridge` state: `self.servers` and `self.server_status`. -/
structure MCPBridge where
  servers : List (String × MCPServer)
  server_status : List (String × MCPServerStatus)

/-- Error kinds raised by `MCPBridge.execute_command`. -/
inductive ExecError where
  | serverNotAvailable (server_name : String)
  | unsupportedCommand (server_name command : String)
  | toolError (msg : String)
deriving DecidableEq, Repr

/-- `MCPBridge.start_all_servers`: start every server; a failed start
marks that server `error` with the exception message, a successful one
marks it `running` and stamps `last_ping`.  (The initialization guard
and logging are omitted; per-server error isolation is kept.) -/
def start_all_servers (b : MCPBridge) (now : ℚ) : MCPBridge :=
  { b with
    server_status :=
      b.servers.foldl
        (fun statuses kv =>
          match alookup statuses kv.1 with
          | none => statuses
          | some st =>
            match kv.2.startResult with
            | .ok _ =>
              aset statuses kv.1
                { st with status := "running", last_ping := some now }
            | .error e =>
              aset statuses kv.1
                { st with status := "error", error_message := some e })
        b.server_status }

/-- `MCPBridge.execute_command(server_name, command, params)`: raises
`RuntimeError` if the name is not in `self.servers`, `AttributeError`
if the server object has no such method, otherwise invokes the method
and propagates whatever it raises.  Note the source consults only
`self.servers`; it never reads `self.server_status`. -/
def execute_command (b : MCPBridge) (server_name command : String)
    (params : List (String × String)) : Except ExecError String :=
  match alookup b.servers server_name with
  | none => .error (.serverNotAvailable server_name)
  | some server =>
    if command ∈ server.commands then
      match server.run command params with
      | .ok v => .ok v
      | .error e => .error (.toolError e)
    else
      .error (.unsupportedCommand server_name command)

/-- A concrete bridge for the C1 counterexample: one registered search
server whose `start()` raises, leaving its recorded status `"error"`. -/
def c1Server : MCPServer :=
  { commands := ["web_search"]
    run := fun _ _ => .ok "search results"
    startResult := .error "connection refused" }

def c1Bridge : MCPBridge :=
  start_all_servers
    { servers := [("search", c1Server)]
      server_status :=
        [("search",
          { name := "search", status := "initialized",
            capabilities :=
              ["web_search", "knowledge_query", "fact_check", "research"] })] }
    0

/-- Counterexample to claim C1 as stated: after `start_all_servers` the
search tool's recorded status is `"error"` (not `"running"`), yet
`execute_command` still invokes the tool's command method and returns
its result instead of failing with a tool-unavailable error. -/
theorem c1_counterexample :
    ((alookup c1Bridge.server_status "search").map MCPServerStatus.status
      = some "error") ∧
    "error" ≠ "running" ∧
    execute_command c1Bridge "search" "web_search" [] = .ok "search results" := by
  refine ⟨rfl, by decide, rfl⟩

/-- Claim C1 (amended): `execute_command` fails with a distinct
server-not-available error when the tool name is unknown and a distinct
unsupported-command error when the tool does not declare the command,
but it performs no status check at all — dispatch never consults
`server_status`, so a tool whose recorded status is not `running` still
has its command method invoked. -/
theorem c1_execute_command_dispatch (b : MCPBridge)
    (server_name command : String) (params : List (String × String)) :
    (alookup b.servers server_name = none →
      execute_command b server_name command params
        = .error (.serverNotAvailable server_name)) ∧
    (∀ server, alookup b.servers server_name = some server →
      command ∉ server.commands →
      execute_command b server_name command params
        = .error (.unsupportedCommand server_name command)) ∧
    (∀ server, alookup b.servers server_name = some server →
      command ∈ server.commands →
      execute_command b server_name command params
        = (server.run command params).mapError .toolError) ∧
    (∀ statuses,
      execute_command { b with server_status := statuses }
          server_name command params
        = execute_command b server_name command params) := by
  refine ⟨?_, ?_, ?_, ?_⟩
  · intro h
    simp [execute_command, h]
  · intro server hs hc
    simp [execute_command, hs, hc]
  · intro server hs hc
    simp only [execute_command, hs]
    rw [if_pos hc]
    cases server.run command params <;> simp [Except.mapError]
  · intro statuses
    simp [execute_command]

/-- Witness for C1's amended theorem: applied to the concrete bridge of
the counterexample state, where the command is declared and runs. -/
theorem c1_execute_command_dispatch_witness :
    execute_command c1Bridge "search" "web_search" []
      = (c1Server.run "web_search" []).mapError ExecError.toolError :=
  (c1_execute_command_dispatch c1Bridge "search" "web_search" []).2.2.1
    c1Server (by rfl) (by decide)

/- ### JWT authentication (`auth/jwt_auth.py`, `api/auth_routes.py`) — C9 -/

/-- The decoded JWT claims dictionary (`to_encode` in
`JWTAuth.create_access_token`): times are POSIX seconds as rationals. -/
structure TokenPayload where
  sub : Option String
  exp : ℚ
  iat : ℚ
  type : String
deriving DecidableEq, Repr

/-- A signed token: `jwt.encode(claims, secret, HS256)` is modelled as
the claims plus the signing secret; `jwt.decode` succeeds exactly when
the verifying secret matches. -/
structure JwtToken where
  payload : TokenPayload
  secret : String
deriving DecidableEq, Repr

/-- Error kinds `verify_token` maps to distinct 401 responses. -/
inductive AuthError where
  | expired
  | invalidCredentials
  | invalidApiKey
deriving DecidableEq, Repr

/-- `JWTAuth.create_access_token(user_id, expires_delta)`.  The two
`datetime.utcnow()` calls are the instants `nowExp` (computing `expire`)
and `nowIat` (filling `iat`), in program order. -/
def create_access_token (secret user_id : String) (expires_delta : Option ℚ)
    (nowExp nowIat : ℚ) : JwtToken :=
  let expire : ℚ :=
    match expires_delta with
    | some d => nowExp + d
    | none => nowExp + 24 * 3600
  { payload := { sub := some user_id, exp := expire, iat := nowIat,
                 type := "access" }
    secret := secret }

/-- `JWTAuth.verify_token(token)`: `jwt.decode` checks the signature and
the `exp` claim (expired when `exp ≤ now`), then the code rejects a
missing `sub`; success returns the payload. -/
def verify_token (secret : String) (now : ℚ) (t : JwtToken) :
    Except AuthError TokenPayload :=
  if t.secret ≠ secret then .error .invalidCredentials
  else if t.payload.exp ≤ now then .error .expired
  else
    match t.payload.sub with
    | none => .error .invalidCredentials
    | some _ => .ok t.payload

/-- `APIKeyManager.VALID_API_KEYS` static catalog. -/
def VALID_API_KEYS : List (String × String) :=
  [("demo_key_123", "demo_user"), ("test_key_456", "test_user")]

/-- The environment-variable names and derived user ids used by
`EnhancedAPIKeyManager` (`auth_routes.py`). -/
def env_api_keys : List (String × String) :=
  [("ANTHROPIC_API_KEY", "anthropic_user"),
   ("OPENAI_API_KEY", "openai_user"),
   ("ELEVENLABS_API_KEY", "elevenlabs_user"),
   ("LIVEKIT_API_KEY", "livekit_user")]

/-- Ambient state for key validation: the process environment and the
`hashlib.sha256` hexdigest (an external primitive, abstracted). -/
structure AuthEnv where
  env : List (String × String)
  sha256hex : String → String

/-- `EnhancedAPIKeyManager.get_valid_api_keys`: the static catalog plus,
for each configured environment key, an identifier
`api_key[:8] + "_" + sha256(api_key)[:8]` mapped to its user id. -/
def get_valid_api_keys (e : AuthEnv) : List (String × String) :=
  env_api_keys.foldl
    (fun acc kv =>
      match alookup e.env kv.1 with
      | some v => aset acc (strTake 8 v ++ "_" ++ strTake 8 (e.sha256hex v)) kv.2
      | none => acc)
    VALID_API_KEYS

/-- `EnhancedAPIKeyManager.validate_api_key`: direct lookup in the
assembled catalog, then a comparison against each environment value with
the user id derived from the variable name. -/
def validate_api_key (e : AuthEnv) (api_key : String) : Option String :=
  match alookup (get_valid_api_keys e) api_key with
  | some uid => some uid
  | none =>
    ["ANTHROPIC_API_KEY", "OPENAI_API_KEY", "ELEVENLABS_API_KEY",
     "LIVEKIT_API_KEY"].findSome?
      (fun envKey =>
        match alookup e.env envKey with
        | some v =>
          if api_key = v then
            some ((envKey.toLower.replace "_api_key" "") ++ "_user")
          else none
        | none => none)

/-- The token lifetime dictated by the client hint, in seconds:
`expiration_hours = 24 if user_agent and "iOS" in user_agent else 1`
times 3600 (`auth_routes.py`). -/
def declared_lifetime (user_agent : Option String) : ℚ :=
  (match user_agent with
   | some ua => if strContains ua "iOS" then (24 : ℚ) else 1
   | none => 1) * 3600

/-- `generate_token` route (`auth_routes.py`): validates the key, picks
a 24-hour lifetime when the `User-Agent` header mentions `iOS` and 1
hour otherwise, issues the token and reports `expires_in` in seconds. -/
def generate_token (e : AuthEnv) (secret api_key : String)
    (user_agent : Option String) (nowExp nowIat : ℚ) :
    Except AuthError (ℚ × JwtToken) :=
  match validate_api_key e api_key with
  | none => .error .invalidApiKey
  | some uid =>
    let token := create_access_token secret uid
      (some (declared_lifetime user_agent)) nowExp nowIat
    .ok (declared_lifetime user_agent, token)

/-- Claim C9: for every valid `api_key`, token issuance declares a
1-hour lifetime by default and a 24-hour lifetime when the client hint
mentions iOS, and verifying the issued token (before expiry) yields the
original subject user id and an expiry equal to the issue time plus the
declared lifetime, within one second (the two `utcnow()` readings taken
while issuing are at most a second apart). -/
theorem c9_issue_verify_roundtrip (e : AuthEnv) (secret api_key : String)
    (user_agent : Option String) (nowExp nowIat nowVerify : ℚ)
    (uid : String)
    (hvalid : validate_api_key e api_key = some uid)
    (hclock₁ : nowExp ≤ nowIat) (hclock₂ : nowIat ≤ nowExp + 1)
    (hfresh : nowVerify < nowExp + declared_lifetime user_agent) :
    generate_token e secret api_key user_agent nowExp nowIat
      = .ok (declared_lifetime user_agent,
          create_access_token secret uid
            (some (declared_lifetime user_agent)) nowExp nowIat) ∧
    (user_agent = none → declared_lifetime user_agent = 3600) ∧
    (∀ s, user_agent = some s → strContains s "iOS" →
      declared_lifetime user_agent = 24 * 3600) ∧
    (∀ s, user_agent = some s → ¬ strContains s "iOS" →
      declared_lifetime user_agent = 3600) ∧
    (let token := create_access_token secret uid
        (some (declared_lifetime user_agent)) nowExp nowIat;
      verify_token secret nowVerify token = .ok token.payload ∧
      token.payload.sub = some uid ∧
      |token.payload.exp - (token.payload.iat + declared_lifetime user_agent)|
        ≤ 1) := by
  refine ⟨?_, ?_, ?_, ?_, ?_, ?_, ?_⟩
  · simp [generate_token, hvalid]
  · intro h
    subst h
    simp [declared_lifetime]
  · intro s hs hios
    subst hs
    simp [declared_lifetime, hios]
  · intro s hs hios
    subst hs
    simp only [declared_lifetime]
    rw [if_neg hios]
    norm_num
  · simp only [create_access_token, verify_token] at hfresh ⊢
    rw [if_neg (by simp), if_neg (by simpa using not_le.mpr hfresh)]
  · rfl
  · simp only [create_access_token]
    rw [abs_le]
    constructor <;> simp <;> linarith

/-- Witness for C9: the static key `demo_key_123` with an iOS user
agent, issued at `t = 1000` (both clock readings at `1000`) and verified
at `t = 2000`. -/
theorem c9_issue_verify_roundtrip_witness :
    let e : AuthEnv := { env := [], sha256hex := fun _ => "" }
    let ua : Option String := some "iOS-Client"
    let token := create_access_token "s" "demo_user"
      (some (declared_lifetime ua)) 1000 1000
    generate_token e "s" "demo_key_123" ua 1000 1000
      = .ok (declared_lifetime ua, token) ∧
    verify_token "s" 2000 token = .ok token.payload ∧
    token.payload.sub = some "demo_user" ∧
    |token.payload.exp - (token.payload.iat + declared_lifetime ua)| ≤ 1 := by
  intro e ua token
  have h := c9_issue_verify_roundtrip e "s" "demo_key_123" ua
    1000 1000 2000 "demo_user"
    (by decide)
    (by norm_num)
    (by norm_num)
    (by simp [declared_lifetime, strContains, strContainsAux]; norm_num)
  exact ⟨h.1, h.2.2.2.2.1, h.2.2.2.2.2.1, h.2.2.2.2.2.2⟩

/- ### Search server (`mcp/search_server.py`) — claim C8 -/

/-- One search-result dict.  Fields the code reads with
`result.get(key, default)` are `Option`s (`none` models a missing key);
`relevance_score` is the float as an exact rational. -/
structure SearchResult where
  title : Option String
  url : Option String
  snippet : Option String
  source : Option String
  relevance_score : Option ℚ
  rtype : Option String
deriving DecidableEq, Repr

/-- Domains treated as authoritative by `_rank_and_deduplicate`. -/
def authoritativeDomains : List String :=
  ["wikipedia.org", "britannica.com", "gov", "edu"]

/-- The `rank_score` closure of `_rank_and_deduplicate`: the base
relevance (default `0.5`), `+0.2` for an authoritative domain substring
in the URL, `+0.1` when the query appears in the title (both
case-insensitively). -/
def rank_score (query : String) (result : SearchResult) : ℚ :=
  let base := result.relevance_score.getD 0.5
  let base := if authoritativeDomains.any
      (fun d => strContains (result.url.getD "").toLower d) then
    base + 0.2 else base
  if strContains (result.title.getD "").toLower query.toLower then
    base + 0.1 else base

/-- URL deduplication loop of `_rank_and_deduplicate`: keep a result
only when its URL is non-empty and unseen. -/
def dedupByUrlAux (seen : List String) : List SearchResult → List SearchResult
  | [] => []
  | r :: rest =>
    let url := r.url.getD ""
    if url ≠ "" ∧ url ∉ seen then
      r :: dedupByUrlAux (url :: seen) rest
    else
      dedupByUrlAux seen rest

/-- `SearchMCPServer._rank_and_deduplicate(results, query)`:
deduplicate by URL, then stable-sort by descending `rank_score`
(Python's `sorted(..., key=rank_score, reverse=True)`). -/
def rank_and_deduplicate (results : List SearchResult) (query : String) :
    List SearchResult :=
  (dedupByUrlAux [] results).mergeSort
    (fun a b => rank_score query b ≤ rank_score query a)

/-- The merged result list `web_search` returns: the ranked,
deduplicated aggregate truncated to the requested `num_results`
(`ranked_results[:num_results]`). -/
def web_search_results (results : List SearchResult) (query : String)
    (num_results : ℕ) : List SearchResult :=
  (rank_and_deduplicate results query).take num_results

/-- Every result the dedup loop emits has a non-empty URL outside `seen`,
and the emitted URLs are pairwise distinct. -/
theorem dedupByUrlAux_spec (results : List SearchResult) :
    ∀ seen : List String,
      (∀ r ∈ dedupByUrlAux seen results, r.url.getD "" ∉ seen) ∧
      (dedupByUrlAux seen results).Pairwise
        (fun a b => a.url.getD "" ≠ b.url.getD "") := by
  induction results with
  | nil => intro seen; simp [dedupByUrlAux]
  | cons r rest ih =>
    intro seen
    simp only [dedupByUrlAux]
    split_ifs with hkeep
    · obtain ⟨hnotin, hpair⟩ := ih (r.url.getD "" :: seen)
      refine ⟨?_, ?_⟩
      · intro x hx
        rcases List.mem_cons.mp hx with hx | hx
        · subst hx; exact hkeep.2
        · intro hcontra
          exact hnotin x hx (List.mem_cons_of_mem _ hcontra)
      · refine List.pairwise_cons.mpr ⟨?_, hpair⟩
        intro x hx heq
        exact hnotin x hx (heq ▸ List.mem_cons_self _ _)
    · exact ih seen

/-- Claim C8: for every multi-source web search with requested count
`n`, the merged result list (a) contains no two entries with the same
URL, (b) is sorted in descending order of the composite score
`relevance_score + 0.2·[authoritative domain] + 0.1·[query in title]`,
and (c) has length at most `n`. -/
theorem c8_web_search_merged_results (results : List SearchResult)
    (query : String) (n : ℕ) :
    (web_search_results results query n).Pairwise
      (fun a b => a.url.getD "" ≠ b.url.getD "") ∧
    (web_search_results results query n).Sorted
      (fun a b => rank_score query b ≤ rank_score query a) ∧
    (web_search_results results query n).length ≤ n := by
  have hdedup := (dedupByUrlAux_spec results []).2
  have hperm : (rank_and_deduplicate results query).Perm
      (dedupByUrlAux [] results) :=
    List.mergeSort_perm _ _
  have hpair : (rank_and_deduplicate results query).Pairwise
      (fun a b => a.url.getD "" ≠ b.url.getD "") := by
    refine (List.Perm.pairwise_iff ?_ hperm).mpr hdedup
    intro a b h
    exact fun heq => h heq.symm
  have hsorted : (rank_and_deduplicate results query).Sorted
      (fun a b => rank_score query b ≤ rank_score query a) := by
    have := @List.sorted_mergeSort SearchResult
      (fun a b => decide (rank_score query b ≤ rank_score query a))
      (fun a b c hab hbc => by
        simp only [decide_eq_true_eq] at hab hbc ⊢
        exact le_trans hbc hab)
      (fun a b => by
        simp only [Bool.or_eq_true, decide_eq_true_eq]
        exact le_total (rank_score query b) (rank_score query a))
      (dedupByUrlAux [] results)
    unfold rank_and_deduplicate
    refine List.Pairwise.imp ?_ this
    intro a b h
    simpa using h
  refine ⟨?_, ?_, ?_⟩
  · exact hpair.sublist (List.take_sublist _ _)
  · exact hsorted.sublist (List.take_sublist _ _)
  · simpa [web_search_results] using List.length_take_le n _

/- ### WebSocket manager (`api/websocket_manager.py`) — claim C10 -/

/-- `del d[k]` on a Python dict. -/
def aerase {β : Type} (l : List (String × β)) (k : String) :
    List (String × β) :=
  match l with
  | [] => []
  | (k', v) :: rest =>
    if k' = k then rest else (k', v) :: aerase rest k

theorem alookup_aset_self {β : Type} (l : List (String × β)) (k : String)
    (v : β) : alookup (aset l k v) k = some v := by
  induction l with
  | nil => simp [aset, alookup]
  | cons kv rest ih =>
    obtain ⟨k', v'⟩ := kv
    by_cases h : k' = k <;> simp [aset, alookup, h, ih]

theorem alookup_aset_ne {β : Type} (l : List (String × β)) (k k' : String)
    (v : β) (h : k' ≠ k) : alookup (aset l k v) k' = alookup l k' := by
  have hne : k ≠ k' := Ne.symm h
  induction l with
  | nil => simp [aset, alookup, hne]
  | cons kv rest ih =>
    obtain ⟨k₀, v₀⟩ := kv
    by_cases h₀ : k₀ = k
    · subst h₀
      simp [aset, alookup, hne]
    · simp [aset, alookup, h₀, ih]

theorem alookup_aerase_ne {β : Type} (l : List (String × β)) (k k' : String)
    (h : k' ≠ k) : alookup (aerase l k) k' = alookup l k' := by
  have hne : k ≠ k' := Ne.symm h
  induction l with
  | nil => simp [aerase]
  | cons kv rest ih =>
    obtain ⟨k₀, v₀⟩ := kv
    by_cases h₀ : k₀ = k
    · subst h₀
      simp [aerase, alookup, hne]
    · simp [aerase, alookup, h₀, ih]

/-- A `WebSocketConnection` record (transport handle omitted; send
outcomes enter the model as explicit success flags). -/
structure WSConnection where
  client_id : String
  connected_at : ℚ
  last_activity : ℚ
  message_count : ℕ
  is_active : Bool
deriving DecidableEq, Repr

/-- The `WebSocketManager` state: `self.active_connections` and
`self.connection_groups`. -/
structure WSManagerState where
  active_connections : List (String × WSConnection)
  connection_groups : List (String × List String)
deriving Repr

/-- `WebSocketManager.disconnect(client_id)`: when the client is
registered, drop it from the registry and `members.remove(client_id)`
in every group that lists it; otherwise do nothing. -/
def ws_disconnect (s : WSManagerState) (client : String) : WSManagerState :=
  if (alookup s.active_connections client).isSome then
    { active_connections := aerase s.active_connections client
      connection_groups := s.connection_groups.map (fun g => (g.1, g.2.erase client)) }
  else s

/-- `WebSocketManager.send_personal_message(message, client_id)`:
returns `False` untouched for an unknown client; on a successful
transport send stamps activity and the message counter; on a failed
send the handler disconnects the client and returns `False`.  `ok` is
the outcome of the underlying `websocket.send_json` call. -/
def send_personal_message (s : WSManagerState) (client : String) (now : ℚ)
    (ok : Bool) : WSManagerState × Bool :=
  match alookup s.active_connections client with
  | none => (s, false)
  | some conn =>
    if ok then
      let conn' := { conn with last_activity := now,
                               message_count := conn.message_count + 1 }
      ({ s with active_connections := aset s.active_connections client conn' },
        true)
    else
      (ws_disconnect s client, false)

/-- `WebSocketManager.connect(websocket, client_id)`: register the
connection, then send the welcome message (whose failure path
disconnects the client again). -/
def ws_connect (s : WSManagerState) (client : String) (now : ℚ)
    (welcomeOk : Bool) : WSManagerState :=
  let conn : WSConnection :=
    { client_id := client, connected_at := now, last_activity := now,
      message_count := 0, is_active := true }
  let s₁ : WSManagerState :=
    { s with active_connections := aset s.active_connections client conn }
  (send_personal_message s₁ client now welcomeOk).1

/-- `WebSocketManager.add_to_group(client_id, group_name)`: refused
(returning `False`) for a client that is not connected; otherwise the
group list is created on demand and the client appended if absent. -/
def add_to_group (s : WSManagerState) (client group : String) :
    WSManagerState × Bool :=
  if (alookup s.active_connections client).isSome then
    let members := (alookup s.connection_groups group).getD []
    let members' := if client ∈ members then members else members ++ [client]
    ({ s with connection_groups := aset s.connection_groups group members' },
      true)
  else (s, false)

/-- `WebSocketManager.remove_from_group(client_id, group_name)`. -/
def remove_from_group (s : WSManagerState) (client group : String) :
    WSManagerState :=
  match alookup s.connection_groups group with
  | none => s
  | some members =>
    { s with
      connection_groups := aset s.connection_groups group (members.erase client) }

/-- `WebSocketManager.broadcast_message`: iterate over a snapshot of
the registry keys, sending to everyone not excluded (`okf` gives each
transport send's outcome). -/
def broadcast_message (s : WSManagerState) (now : ℚ) (okf : String → Bool)
    (exclude : List String) : WSManagerState :=
  (s.active_connections.map Prod.fst).foldl
    (fun st c =>
      if c ∈ exclude then st else (send_personal_message st c now (okf c)).1)
    s

/-- `WebSocketManager.send_to_group`: iterate over a copy of the group's
member list. -/
def send_to_group (s : WSManagerState) (group : String) (now : ℚ)
    (okf : String → Bool) : WSManagerState :=
  match alookup s.connection_groups group with
  | none => s
  | some members =>
    members.foldl (fun st c => (send_personal_message st c now (okf c)).1) s

/-- `WebSocketManager.shutdown`: for a snapshot of the registry keys,
send the shutdown notice (failures swallowed) and disconnect. -/
def ws_shutdown (s : WSManagerState) (now : ℚ) (okf : String → Bool) :
    WSManagerState :=
  (s.active_connections.map Prod.fst).foldl
    (fun st c => ws_disconnect (send_personal_message st c now (okf c)).1 c)
    s

/-- The operations of claim C10 on the session multiplexer. -/
inductive WSOp where
  | connect (client : String) (now : ℚ) (welcomeOk : Bool)
  | disconnect (client : String)
  | addToGroup (client group : String)
  | removeFromGroup (client group : String)
  | sendPersonal (client : String) (now : ℚ) (ok : Bool)
  | broadcast (now : ℚ) (okf : String → Bool) (exclude : List String)
  | sendToGroup (group : String) (now : ℚ) (okf : String → Bool)
  | shutdown (now : ℚ) (okf : String → Bool)

def WSOp.apply (s : WSManagerState) : WSOp → WSManagerState
  | .connect client now welcomeOk => ws_connect s client now welcomeOk
  | .disconnect client => ws_disconnect s client
  | .addToGroup client group => (add_to_group s client group).1
  | .removeFromGroup client group => remove_from_group s client group
  | .sendPersonal client now ok => (send_personal_message s client now ok).1
  | .broadcast now okf exclude => broadcast_message s now okf exclude
  | .sendToGroup group now okf => send_to_group s group now okf
  | .shutdown now okf => ws_shutdown s now okf

/-- The manager starts with empty registry and no groups. -/
def wsInitialState : WSManagerState := { active_connections := [], connection_groups := [] }

def runWSOps (ops : List WSOp) : WSManagerState :=
  ops.foldl WSOp.apply wsInitialState

/-- The claimed invariant: every group member list is duplicate-free and
every member is a key of the active-connections registry. -/
def GroupInv (s : WSManagerState) : Prop :=
  ∀ g ∈ s.connection_groups, g.2.Nodup ∧
    ∀ c ∈ g.2, (alookup s.active_connections c).isSome = true

instance (s : WSManagerState) : Decidable (GroupInv s) := by
  unfold GroupInv
  infer_instance

theorem alookup_mem {β : Type} {l : List (String × β)} {k : String} {v : β}
    (h : alookup l k = some v) : (k, v) ∈ l := by
  induction l with
  | nil => simp [alookup] at h
  | cons kv rest ih =>
    obtain ⟨k₀, v₀⟩ := kv
    by_cases h₀ : k₀ = k
    · subst h₀
      have hv : v₀ = v := by simpa [alookup] using h
      subst hv
      exact List.mem_cons_self _ _
    · have h' : alookup rest k = some v := by simpa [alookup, h₀] using h
      exact List.mem_cons_of_mem _ (ih h')

theorem mem_aset {β : Type} {l : List (String × β)} {k : String} {v : β}
    {p : String × β} (h : p ∈ aset l k v) : p = (k, v) ∨ p ∈ l := by
  induction l with
  | nil => simpa [aset] using h
  | cons kv rest ih =>
    obtain ⟨k₀, v₀⟩ := kv
    by_cases h₀ : k₀ = k
    · subst h₀
      have h' : p = (k₀, v) ∨ p ∈ rest := by simpa [aset] using h
      rcases h' with h1 | h1
      · exact Or.inl h1
      · exact Or.inr (List.mem_cons_of_mem _ h1)
    · have h' : p = (k₀, v₀) ∨ p ∈ aset rest k v := by
        simpa [aset, h₀] using h
      rcases h' with h1 | h1
      · refine Or.inr ?_
        rw [h1]
        exact List.mem_cons_self _ _
      · rcases ih h1 with h2 | h2
        · exact Or.inl h2
        · exact Or.inr (List.mem_cons_of_mem _ h2)

theorem groupInv_disconnect {s : WSManagerState} (h : GroupInv s)
    (client : String) : GroupInv (ws_disconnect s client) := by
  unfold ws_disconnect
  split_ifs with hc
  · intro g hg
    simp only [List.mem_map] at hg
    obtain ⟨g₀, hg₀, rfl⟩ := hg
    obtain ⟨hnodup, hmem⟩ := h g₀ hg₀
    refine ⟨hnodup.erase _, ?_⟩
    intro c hcmem
    have hc' := (List.Nodup.mem_erase_iff hnodup).mp hcmem
    rw [alookup_aerase_ne _ _ _ hc'.1]
    exact hmem c hc'.2
  · exact h

/-- After a successful `send_personal_message`, or registering a fresh
connection, the registry's key set only grows, so group membership keys
stay valid. -/
theorem groupInv_aset_conn {s : WSManagerState} (h : GroupInv s)
    (client : String) (conn : WSConnection) :
    GroupInv { s with
      active_connections := aset s.active_connections client conn } := by
  intro g hg
  obtain ⟨hnodup, hmem⟩ := h g hg
  refine ⟨hnodup, ?_⟩
  intro c hc
  by_cases hceq : c = client
  · subst hceq
    simp [alookup_aset_self]
  · rw [alookup_aset_ne _ _ _ _ hceq]
    exact hmem c hc

theorem groupInv_send_personal {s : WSManagerState} (h : GroupInv s)
    (client : String) (now : ℚ) (ok : Bool) :
    GroupInv (send_personal_message s client now ok).1 := by
  unfold send_personal_message
  cases hl : alookup s.active_connections client with
  | none => exact h
  | some conn =>
    cases ok with
    | true =>
      simp only [if_true]
      exact groupInv_aset_conn h client _
    | false =>
      simp only [Bool.false_eq_true, if_false]
      exact groupInv_disconnect h client

theorem groupInv_connect {s : WSManagerState} (h : GroupInv s)
    (client : String) (now : ℚ) (welcomeOk : Bool) :
    GroupInv (ws_connect s client now welcomeOk) := by
  unfold ws_connect
  exact groupInv_send_personal (groupInv_aset_conn h client _) client now
    welcomeOk

theorem groupInv_add_to_group {s : WSManagerState} (h : GroupInv s)
    (client group : String) : GroupInv (add_to_group s client group).1 := by
  unfold add_to_group
  split_ifs with hc
  · intro g hg
    simp only at hg
    rcases mem_aset hg with hgm | hgm
    · subst hgm
      cases hm : alookup s.connection_groups group with
      | none =>
        simp only [hm, Option.getD_none]
        split_ifs with hin
        · simp at hin
        · simpa using hc
      | some members =>
        obtain ⟨hnodup, hmem⟩ := h (group, members) (alookup_mem hm)
        simp only [hm, Option.getD_some]
        split_ifs with hin
        · exact ⟨hnodup, hmem⟩
        · refine ⟨?_, ?_⟩
          · refine List.nodup_append.mpr ⟨hnodup, List.nodup_singleton _, ?_⟩
            intro a ha hb
            rw [List.mem_singleton] at hb
            subst hb
            exact hin ha
          · intro c hcm
            rcases List.mem_append.mp hcm with hcm | hcm
            · exact hmem c hcm
            · rw [List.mem_singleton] at hcm
              subst hcm
              exact hc
    · exact h g hgm
  · exact h

theorem groupInv_remove_from_group {s : WSManagerState} (h : GroupInv s)
    (client group : String) :
    GroupInv (remove_from_group s client group) := by
  unfold remove_from_group
  cases hm : alookup s.connection_groups group with
  | none => exact h
  | some members =>
    intro g hg
    simp only at hg
    rcases mem_aset hg with hgm | hgm
    · subst hgm
      obtain ⟨hnodup, hmem⟩ := h (group, members) (alookup_mem hm)
      refine ⟨hnodup.erase _, ?_⟩
      intro c hcm
      exact hmem c (List.mem_of_mem_erase hcm)
    · exact h g hgm

/-- A fold whose step preserves `GroupInv` preserves it overall. -/
theorem groupInv_foldl {α : Type} (f : WSManagerState → α → WSManagerState)
    (hf : ∀ s a, GroupInv s → GroupInv (f s a)) :
    ∀ (l : List α) (s : WSManagerState), GroupInv s →
      GroupInv (l.foldl f s) := by
  intro l
  induction l with
  | nil => intro s hs; exact hs
  | cons a rest ih => intro s hs; exact ih _ (hf s a hs)

theorem groupInv_step {s : WSManagerState} (h : GroupInv s) (op : WSOp) :
    GroupInv (WSOp.apply s op) := by
  cases op with
  | connect client now welcomeOk => exact groupInv_connect h client now welcomeOk
  | disconnect client => exact groupInv_disconnect h client
  | addToGroup client group => exact groupInv_add_to_group h client group
  | removeFromGroup client group =>
    exact groupInv_remove_from_group h client group
  | sendPersonal client now ok => exact groupInv_send_personal h client now ok
  | broadcast now okf exclude =>
    simp only [WSOp.apply]
    unfold broadcast_message
    refine groupInv_foldl _ ?_ _ _ h
    intro s' c hs'
    by_cases hex : c ∈ exclude
    · simpa [hex] using hs'
    · simpa [hex] using groupInv_send_personal hs' c now (okf c)
  | sendToGroup group now okf =>
    simp only [WSOp.apply]
    unfold send_to_group
    cases alookup s.connection_groups group with
    | none => exact h
    | some members =>
      refine groupInv_foldl _ ?_ _ _ h
      intro s' c hs'
      exact groupInv_send_personal hs' c now (okf c)
  | shutdown now okf =>
    simp only [WSOp.apply]
    unfold ws_shutdown
    refine groupInv_foldl _ ?_ _ _ h
    intro s' c hs'
    exact groupInv_disconnect (groupInv_send_personal hs' c now (okf c)) c

/-- Claim C10: after any sequence of connect, disconnect, add-to-group,
remove-from-group, send and shutdown operations, every client id in any
group's member list is a key of the active-connections registry; adding
to a group is refused for unconnected clients, and disconnection
(including disconnection triggered by a failed send) removes the client
from every group. -/
theorem c10_group_membership_invariant :
    (∀ ops : List WSOp, GroupInv (runWSOps ops)) ∧
    (∀ (s : WSManagerState) (client group : String),
      alookup s.active_connections client = none →
      add_to_group s client group = (s, false)) ∧
    (∀ (s : WSManagerState) (client : String), GroupInv s →
      ∀ g ∈ (ws_disconnect s client).connection_groups, client ∉ g.2) ∧
    (∀ (s : WSManagerState) (client : String) (now : ℚ), GroupInv s →
      ∀ g ∈ (send_personal_message s client now false).1.connection_groups,
        client ∉ g.2) := by
  have hdisc : ∀ (s : WSManagerState) (client : String), GroupInv s →
      ∀ g ∈ (ws_disconnect s client).connection_groups, client ∉ g.2 := by
    intro s client h g hg
    unfold ws_disconnect at hg
    split_ifs at hg with hc
    · simp only [List.mem_map] at hg
      obtain ⟨g₀, hg₀, rfl⟩ := hg
      exact (h g₀ hg₀).1.not_mem_erase
    · intro hmem
      exact hc ((h g hg).2 client hmem)
  refine ⟨?_, ?_, hdisc, ?_⟩
  · intro ops
    unfold runWSOps
    refine groupInv_foldl _ (fun s op hs => groupInv_step hs op) ops
      wsInitialState ?_
    intro g hg
    simp [wsInitialState] at hg
  · intro s client group hnone
    unfold add_to_group
    rw [hnone]
    simp
  · intro s client now h g hg
    cases hl : alookup s.active_connections client with
    | none =>
      have hstate : (send_personal_message s client now false).1 = s := by
        unfold send_personal_message
        rw [hl]
      rw [hstate] at hg
      intro hmem
      have := (h g hg).2 client hmem
      rw [hl] at this
      simp at this
    | some conn =>
      have hstate : (send_personal_message s client now false).1
          = ws_disconnect s client := by
        unfold send_personal_message
        rw [hl]
        simp
      rw [hstate] at hg
      exact hdisc s client h g hg

/-- Concrete state for the C10 witness: one connected client `a` that is
a member of group `g`. -/
def c10State : WSManagerState :=
  { active_connections :=
      [("a", { client_id := "a", connected_at := 0, last_activity := 0,
               message_count := 0, is_active := true })]
    connection_groups := [("g", ["a"])] }

/-- Witness for C10: adding the unconnected client `b` to a group is
refused on the initial state, and disconnecting `a` from `c10State`
(where the invariant holds) removes it from group `g`. -/
theorem c10_group_membership_invariant_witness :
    add_to_group wsInitialState "b" "g" = (wsInitialState, false) ∧
    (∀ g ∈ (ws_disconnect c10State "a").connection_groups, "a" ∉ g.2) :=
  ⟨c10_group_membership_invariant.2.1 wsInitialState "b" "g" rfl,
   c10_group_membership_invariant.2.2.1 c10State "a" (by decide)⟩

/- ### Multi-step workflows (`ai/advanced_voice_processor.py`) — C4 -/

/-- `CommandComplexity` enum. -/
inductive CommandComplexity where
  | simple
  | compound
  | sequential
  | conditional
  | iterative
deriving DecidableEq, Repr

/-- `WorkflowStatus` enum. -/
inductive WorkflowStatus where
  | pending
  | running
  | waiting_input
  | completed
  | failed
  | cancelled
deriving DecidableEq, Repr

/-- `ParameterType` enum. -/
inductive ParameterType where
  | literal
  | contextual
  | inferred
  | prompted
  | defaultVal
deriving DecidableEq, Repr

/-- `AdvancedParameter` dataclass (values kept as optional strings). -/
structure AdvancedParameter where
  name : String
  value : Option String
  ptype : ParameterType
  confidence : ℚ
  source : String
  required : Bool := true
  description : String := ""
deriving DecidableEq, Repr

/-- `CommandStep` dataclass. -/
structure CommandStep where
  step_id : String
  command : String
  category : CommandCategory
  parameters : List (String × AdvancedParameter)
  dependencies : List String := []
  status : WorkflowStatus := .pending
  result : Option String := none
  error : Option String := none
  retry_count : ℕ := 0
  max_retries : ℕ := 3
  timeout_seconds : ℕ := 30
  started_at : Option ℚ := none
  completed_at : Option ℚ := none
deriving DecidableEq, Repr

/-- `MultiStepWorkflow` dataclass. -/
structure MultiStepWorkflow where
  workflow_id : String
  user_id : String
  session_id : String
  original_command : String
  complexity : CommandComplexity
  steps : List CommandStep
  current_step : ℕ := 0
  status : WorkflowStatus := .pending
  created_at : ℚ := 0
  updated_at : ℚ := 0
  completion_percentage : ℚ := 0
  total_estimated_time : ℚ := 0
  actual_time : ℚ := 0
deriving DecidableEq, Repr

/-- `MultiStepWorkflow.get_completed_steps().length`. -/
def completedCount (steps : List CommandStep) : ℕ :=
  (steps.filter (fun s => s.status == WorkflowStatus.completed)).length

/-- `MultiStepWorkflow.update_progress`: the completion percentage is
`(completed / total) * 100` (float division modelled exactly). -/
def update_progress (w : MultiStepWorkflow) (now : ℚ) : MultiStepWorkflow :=
  let completed := completedCount w.steps
  let total := w.steps.length
  { w with
    completion_percentage :=
      if total > 0 then ((completed : ℚ) / (total : ℚ)) * 100 else 0
    updated_at := now }

/-- `MultiStepWorkflow.get_current_step`: `steps[current_step]` when in
range. -/
def get_current_step (w : MultiStepWorkflow) : Option CommandStep :=
  w.steps[w.current_step]?

/-- The mutation `continue_workflow` applies to the current step: it
passes through `running` and ends `completed` with timestamps and a
result message (both assignments happen before the function returns, so
only the final state is observable). -/
def completeStep (step : CommandStep) (cur : ℕ) (now : ℚ) : CommandStep :=
  { step with
    status := WorkflowStatus.completed
    started_at := some now
    completed_at := some now
    result := some ("Step " ++ toString (cur + 1) ++ " completed") }

/-- The state change `AdvancedVoiceProcessor.continue_workflow` applies
to one workflow: the current step is completed, `current_step`
advances, progress is recomputed, and the workflow is marked completed
once `current_step ≥ len(steps)`.  The not-found and no-current-step
paths leave the workflow unchanged. -/
def continue_workflow_step (w : MultiStepWorkflow) (now : ℚ) :
    MultiStepWorkflow :=
  match get_current_step w with
  | none => w
  | some step =>
    let w₁ := { w with
      steps := w.steps.set w.current_step (completeStep step w.current_step now)
      current_step := w.current_step + 1 }
    let w₂ := update_progress w₁ now
    if w₂.steps.length ≤ w₂.current_step then
      { w₂ with status := WorkflowStatus.completed }
    else w₂

/-- `AdvancedVoiceProcessor._execute_workflow` on a created workflow:
mark it pending and recompute progress. -/
def execute_workflow_prepare (w : MultiStepWorkflow) (now : ℚ) :
    MultiStepWorkflow :=
  update_progress { w with status := WorkflowStatus.pending } now

/-- A sequence of step advancements at the given instants. -/
def runContinue (w : MultiStepWorkflow) (nows : List ℚ) : MultiStepWorkflow :=
  nows.foldl continue_workflow_step w

/-- Inductive invariant tying progress bookkeeping to the step list:
steps before `current_step` are completed, the rest pending; the
aggregate status and the percentage are determined by `current_step`. -/
def WorkflowInv (w : MultiStepWorkflow) : Prop :=
  w.current_step ≤ w.steps.length ∧
  (∀ i (h : i < w.steps.length),
    (w.steps.get ⟨i, h⟩).status =
      (if i < w.current_step then WorkflowStatus.completed
       else WorkflowStatus.pending)) ∧
  (w.status =
    (if 0 < w.steps.length ∧ w.steps.length ≤ w.current_step then
      WorkflowStatus.completed
     else WorkflowStatus.pending)) ∧
  (w.completion_percentage =
    if 0 < w.steps.length then
      ((w.current_step : ℚ) / (w.steps.length : ℚ)) * 100
    else 0)

/-- Under the prefix characterization, the completed-step count equals
`current_step`. -/
theorem completedCount_of_inv (steps : List CommandStep) (cur : ℕ)
    (hle : cur ≤ steps.length)
    (hinv : ∀ i (h : i < steps.length),
      (steps.get ⟨i, h⟩).status =
        (if i < cur then WorkflowStatus.completed
         else WorkflowStatus.pending)) :
    completedCount steps = cur := by
  induction steps generalizing cur with
  | nil =>
    have h0 : cur = 0 := Nat.le_zero.mp (by simpa using hle)
    simp [completedCount, h0]
  | cons s rest ih =>
    cases cur with
    | zero =>
      have hs : s.status = WorkflowStatus.pending := by
        simpa using hinv 0 (by simp)
      have hrest : completedCount rest = 0 := by
        refine ih 0 (Nat.zero_le _) ?_
        intro i hi
        simpa using hinv (i + 1) (by simpa using Nat.succ_lt_succ hi)
      simp [completedCount, hs] at hrest ⊢
      exact hrest
    | succ c =>
      have hs : s.status = WorkflowStatus.completed := by
        simpa using hinv 0 (by simp)
      have hrest : completedCount rest = c := by
        refine ih c (by simpa using Nat.succ_le_succ_iff.mp (by simpa using hle)) ?_
        intro i hi
        have := hinv (i + 1) (by simpa using Nat.succ_lt_succ hi)
        simpa [Nat.succ_lt_succ_iff] using this
      simp [completedCount, hs] at hrest ⊢
      omega

theorem workflowInv_continue {w : MultiStepWorkflow} (h : WorkflowInv w)
    (now : ℚ) : WorkflowInv (continue_workflow_step w now) := by
  obtain ⟨hle, hsteps, hstatus, hpct⟩ := h
  unfold continue_workflow_step get_current_step
  cases hcur : w.steps[w.current_step]? with
  | none => exact ⟨hle, hsteps, hstatus, hpct⟩
  | some step =>
    have hlt : w.current_step < w.steps.length := by
      by_contra hge
      rw [List.getElem?_eq_none (by omega)] at hcur
      exact Option.noConfusion hcur
    have hsteps' : ∀ i
        (hi : i < (w.steps.set w.current_step
          (completeStep step w.current_step now)).length),
        ((w.steps.set w.current_step
          (completeStep step w.current_step now)).get ⟨i, hi⟩).status =
          (if i < w.current_step + 1 then WorkflowStatus.completed
           else WorkflowStatus.pending) := by
      intro i hi
      rw [List.length_set] at hi
      by_cases hieq : w.current_step = i
      · subst hieq
        simp [List.get_eq_getElem, List.getElem_set_self, completeStep, hlt]
      · rw [List.get_eq_getElem]
        rw [List.getElem_set_ne hieq]
        have hold := hsteps i hi
        rw [List.get_eq_getElem] at hold
        rw [hold]
        by_cases hi' : i < w.current_step
        · rw [if_pos hi', if_pos (by omega)]
        · rw [if_neg hi', if_neg (by omega)]
    have hcount : completedCount (w.steps.set w.current_step
        (completeStep step w.current_step now)) = w.current_step + 1 := by
      refine completedCount_of_inv _ _ (by rw [List.length_set]; omega) ?_
      intro i hi
      exact hsteps' i hi
    have hpos : 0 < w.steps.length := by omega
    simp only [update_progress, List.length_set, hcount]
    rw [if_pos hpos]
    split_ifs with hdone
    · refine ⟨?_, ?_, ?_, ?_⟩
      · simpa [List.length_set] using Nat.succ_le_of_lt hlt
      · intro i hi
        exact hsteps' i hi
      · simp only [List.length_set]
        rw [if_pos ⟨hpos, hdone⟩]
      · simp only [List.length_set]
        rw [if_pos hpos]
    · refine ⟨?_, ?_, ?_, ?_⟩
      · simpa [List.length_set] using Nat.succ_le_of_lt hlt
      · intro i hi
        exact hsteps' i hi
      · simp only [List.length_set]
        rw [if_neg (by omega)]
        rw [hstatus, if_neg (by omega)]
      · simp only [List.length_set]
        rw [if_pos hpos]

theorem workflowInv_prepare (w : MultiStepWorkflow) (now : ℚ)
    (hpend : ∀ s ∈ w.steps, s.status = WorkflowStatus.pending)
    (hcur : w.current_step = 0) :
    WorkflowInv (execute_workflow_prepare w now) := by
  have hcount : completedCount w.steps = 0 := by
    unfold completedCount
    rw [List.filter_eq_nil.mpr]
    · rfl
    · intro s hs
      simp [hpend s hs]
  unfold execute_workflow_prepare update_progress
  refine ⟨by simpa [hcur] using Nat.zero_le _, ?_, ?_, ?_⟩
  · intro i hi
    simp only [hcur]
    rw [if_neg (by omega)]
    exact hpend _ (List.get_mem _ _ _)
  · simp only [hcur]
    rw [if_neg (by omega)]
  · simp [hcount, hcur]

theorem continue_length (w : MultiStepWorkflow) (now : ℚ) :
    (continue_workflow_step w now).steps.length = w.steps.length := by
  unfold continue_workflow_step get_current_step
  cases w.steps[w.current_step]? with
  | none => rfl
  | some step =>
    dsimp only
    split_ifs <;> simp [update_progress, List.length_set]

theorem workflowInv_runContinue (nows : List ℚ) :
    ∀ w : MultiStepWorkflow, WorkflowInv w →
      WorkflowInv (runContinue w nows) ∧
      (runContinue w nows).steps.length = w.steps.length := by
  induction nows with
  | nil => intro w h; exact ⟨h, rfl⟩
  | cons t rest ih =>
    intro w h
    obtain ⟨hinv, hlen⟩ := ih (continue_workflow_step w t)
      (workflowInv_continue h t)
    exact ⟨hinv, by simpa [runContinue, continue_length] using hlen⟩

/-- Claim C4 (amended): for every workflow with at least one step,
after any sequence of step advancements the `completion_percentage`
equals `completed_steps / total_steps` expressed as a percentage —
`100 · completed / total` — and the aggregate status is `completed` if
and only if every step's status is `completed`. -/
theorem c4_workflow_progress (w : MultiStepWorkflow) (now : ℚ)
    (nows : List ℚ)
    (hlen : 1 ≤ w.steps.length)
    (hpend : ∀ s ∈ w.steps, s.status = WorkflowStatus.pending)
    (hcur : w.current_step = 0) :
    (runContinue (execute_workflow_prepare w now) nows).completion_percentage
      = 100 *
        ((completedCount
          (runContinue (execute_workflow_prepare w now) nows).steps : ℚ) /
         ((runContinue (execute_workflow_prepare w now) nows).steps.length
           : ℚ)) ∧
    ((runContinue (execute_workflow_prepare w now) nows).status
        = WorkflowStatus.completed ↔
      ∀ s ∈ (runContinue (execute_workflow_prepare w now) nows).steps,
        s.status = WorkflowStatus.completed) := by
  obtain ⟨hinv, hlenrun⟩ :=
    workflowInv_runContinue nows (execute_workflow_prepare w now)
      (workflowInv_prepare w now hpend hcur)
  have hlenpre : (execute_workflow_prepare w now).steps.length
      = w.steps.length := rfl
  set wfin := runContinue (execute_workflow_prepare w now) nows with hwfin
  obtain ⟨hle, hsteps, hstatus, hpct⟩ := hinv
  have hpos : 0 < wfin.steps.length := by
    rw [hlenrun, hlenpre]
    omega
  have hcount : completedCount wfin.steps = wfin.current_step :=
    completedCount_of_inv _ _ hle hsteps
  constructor
  · rw [hpct, if_pos hpos, hcount]
    ring
  · constructor
    · intro hcomp
      by_cases hdone : wfin.steps.length ≤ wfin.current_step
      · intro s hs
        obtain ⟨i, rfl⟩ := List.mem_iff_get.mp hs
        have hii : i.1 < wfin.steps.length := i.2
        have hval := hsteps i.1 hii
        rw [if_pos (by omega)] at hval
        exact hval
      · rw [hstatus, if_neg (fun hc => hdone hc.2)] at hcomp
        exact absurd hcomp (by decide)
    · intro hall
      have hdone : wfin.steps.length ≤ wfin.current_step := by
        by_contra hlt
        push_neg at hlt
        have hmem : wfin.steps.get ⟨wfin.current_step, hlt⟩ ∈ wfin.steps :=
          List.get_mem _ _ _
        have := hall _ hmem
        rw [hsteps wfin.current_step hlt, if_neg (by omega)] at this
        exact absurd this (by decide)
      rw [hstatus, if_pos ⟨hpos, hdone⟩]

/-- A two-step workflow as `_detect_multi_step_workflow` would build it
(dynamic plan, all steps pending). -/
def c4Base : MultiStepWorkflow :=
  { workflow_id := "wf-1"
    user_id := "u2"
    session_id := "s2"
    original_command := "do a then b"
    complexity := CommandComplexity.sequential
    steps :=
      [{ step_id := "wf-1_step_0", command := "step_0_intent",
         category := CommandCategory.general_conversation, parameters := [] },
       { step_id := "wf-1_step_1", command := "step_1_intent",
         category := CommandCategory.general_conversation, parameters := [] }] }

/-- The same workflow prepared by `_execute_workflow`. -/
def c4Workflow : MultiStepWorkflow := execute_workflow_prepare c4Base 0

/-- The same workflow after one step advancement. -/
def c4After : MultiStepWorkflow := continue_workflow_step c4Workflow 1

/-- Counterexample to claim C4 as stated: after one advancement of a
two-step workflow, one of two steps is completed, so
`completed_steps / total_steps = 1/2`, but the stored
`completion_percentage` is `50` — the code stores the ratio times 100,
so the two quantities are not equal. -/
theorem c4_counterexample :
    completedCount c4After.steps = 1 ∧
    c4After.steps.length = 2 ∧
    c4After.completion_percentage = 50 ∧
    ((completedCount c4After.steps : ℚ) / (c4After.steps.length : ℚ))
      = 1 / 2 ∧
    c4After.completion_percentage
      ≠ (completedCount c4After.steps : ℚ) / (c4After.steps.length : ℚ) := by
  have h1 : completedCount c4After.steps = 1 := by decide
  have h2 : c4After.steps.length = 2 := by decide
  have h3 : c4After.completion_percentage
      = ((completedCount c4After.steps : ℚ) / (c4After.steps.length : ℚ))
        * 100 := rfl
  refine ⟨h1, h2, ?_, ?_, ?_⟩
  · rw [h3, h1, h2]
    norm_num
  · rw [h1, h2]
    norm_num
  · rw [h3, h1, h2]
    norm_num

/-- Witness for C4's amended theorem at the concrete two-step workflow
with one advancement. -/
theorem c4_workflow_progress_witness :
    (runContinue (execute_workflow_prepare c4Base 0) [1]).completion_percentage
      = 100 *
        ((completedCount
          (runContinue (execute_workflow_prepare c4Base 0) [1]).steps : ℚ) /
         ((runContinue (execute_workflow_prepare c4Base 0) [1]).steps.length
           : ℚ)) ∧
    ((runContinue (execute_workflow_prepare c4Base 0) [1]).status
        = WorkflowStatus.completed ↔
      ∀ s ∈ (runContinue (execute_workflow_prepare c4Base 0) [1]).steps,
        s.status = WorkflowStatus.completed) :=
  c4_workflow_progress c4Base 0 [1] (by decide) (by decide) (by decide)

/- ### Voice classifier (`ai/voice_classifier.py`) — claims C2, C5, C6 -/

/-- The regex pattern strings of `_initialize_command_patterns`, per
category (categories absent from the dict map to `[]`). -/
def commandPatterns : CommandCategory → List String
  | .document_generation =>
    ["\\b(create|generate|make|write)\\s+(document|doc|pdf|report|letter|memo)\\b",
     "\\bdocument\\s+(about|for|on)\\b",
     "\\bwrite\\s+me\\s+a\\b",
     "\\bcreate\\s+a\\s+(pdf|word|doc)\\b"]
  | .email_management =>
    ["\\b(send|compose|write)\\s+(email|mail|message)\\b",
     "\\bemail\\s+(to|about)\\b",
     "\\bsend\\s+.*\\s+to\\s+[\\w@.]+\\b",
     "\\bcompose\\s+a\\s+(message|mail)\\b"]
  | .calendar_scheduling =>
    ["\\b(schedule|book|create|add)\\s+(meeting|appointment|event)\\b",
     "\\bmeet\\s+with\\b",
     "\\b(calendar|schedule)\\s+(for|on)\\b",
     "\\bset\\s+up\\s+a\\s+(meeting|call)\\b"]
  | .web_search =>
    ["\\b(search|find|look up|google)\\s+(for|about)?\\b",
     "\\bwhat\\s+is\\b",
     "\\bhow\\s+to\\b",
     "\\btell\\s+me\\s+about\\b"]
  | .system_control =>
    ["\\b(open|close|launch|start|stop|quit)\\s+(app|application|program)\\b",
     "\\b(increase|decrease|set)\\s+(volume|brightness)\\b",
     "\\b(turn\\s+(on|off)|enable|disable)\\b",
     "\\bsystem\\s+(restart|shutdown)\\b"]
  | .calculations =>
    ["\\b(calculate|compute|what\\s+is)\\s+[\\d\\+\\-\\*\\/\\s]+\\b",
     "\\b\\d+\\s*[\\+\\-\\*\\/]\\s*\\d+\\b",
     "\\bmath\\s+(problem|calculation)\\b",
     "\\bconvert\\s+\\d+\\b"]
  | .reminders =>
    ["\\b(remind|alert)\\s+me\\b",
     "\\bset\\s+(reminder|alarm)\\b",
     "\\bdont?\\s+forget\\b",
     "\\bremember\\s+to\\b"]
  | .general_conversation =>
    ["\\b(hello|hi|hey|good\\s+(morning|afternoon|evening))\\b",
     "\\bhow\\s+are\\s+you\\b",
     "\\bwhat\\s+can\\s+you\\s+do\\b",
     "\\btell\\s+me\\s+a\\s+(joke|story)\\b"]
  | _ => []

/-- The example sentences of `_initialize_command_patterns`, per
category; `calculate_similarity_confidence` returns `0` when they are
absent. -/
def commandExamples : CommandCategory → List String
  | .document_generation =>
    ["create a document about artificial intelligence",
     "generate a PDF report on sales data",
     "write me a letter to the customer",
     "make a document for the meeting"]
  | .email_management =>
    ["send an email to john@example.com",
     "compose a message about the project",
     "write an email to the team",
     "send mail to support"]
  | .calendar_scheduling =>
    ["schedule a meeting with the team",
     "book an appointment for tomorrow",
     "create an event for the conference",
     "meet with Sarah at 3 PM"]
  | .web_search =>
    ["search for Python tutorials",
     "what is machine learning",
     "find information about climate change",
     "look up the weather forecast"]
  | .system_control =>
    ["open the calculator app",
     "increase the volume",
     "turn off bluetooth",
     "close Safari"]
  | .calculations =>
    ["calculate 15 plus 27",
     "what is 100 divided by 4",
     "compute the square root of 64",
     "convert 100 USD to EUR"]
  | .reminders =>
    ["remind me to call mom",
     "set a reminder for the meeting",
     "don\x27t forget to buy groceries",
     "alert me in 30 minutes"]
  | .general_conversation =>
    ["hello there",
     "how are you doing",
     "what can you help me with",
     "tell me a joke"]
  | _ => []

/-- The filler-word list of `preprocess_text`. -/
def filler_words : List String :=
  ["um", "uh", "ah", "like", "you know", "well", "so", "actually",
   "basically", "totally", "literally", "right", "okay", "alright"]

/-- The contraction table of `preprocess_text`, in dict order. -/
def contractions : List (String × String) :=
  [("won\x27t", "will not"), ("can\x27t", "cannot"), ("n\x27t", " not"),
   ("\x27re", " are"), ("\x27ve", " have"), ("\x27ll", " will"),
   ("\x27d", " would"), ("\x27m", " am"), ("it\x27s", "it is"),
   ("that\x27s", "that is")]

/-- `VoiceClassifier.preprocess_text`: lowercase and strip, remove
whole-word fillers, expand contractions, collapse whitespace. -/
def preprocess_text (text : String) : String :=
  let text := pyStrip (pyLower text)
  let text := filler_words.foldl (fun t w => reSubWord w t) text
  let text := contractions.foldl (fun t kv => pyReplace t kv.1 kv.2) text
  pyStrip (collapseWs text)

/-- The external machinery the classifier calls into: the stdlib `re`
engine (`re.search` with `IGNORECASE`, viewed as a Boolean), the fitted
TF-IDF similarity backend of `calculate_similarity_confidence`
(sklearn, returning a cosine in `[0,1]`), the category-scoped regex
parameter extraction of `extract_parameters`, and `hashlib.md5`.  The
specification treats these as pluggable capability interfaces; theorems
state the facts they need about them as hypotheses, and concrete
instantiations (faithful on the strings actually evaluated) serve as
witnesses. -/
structure ClassifierBackend where
  reSearch : String → String → Bool
  similarity : String → CommandCategory → ℚ
  extractParams : String → CommandCategory → List (String × String)
  md5hex : String → String

/-- `Interaction` entries of `conversation_history` (untouched by
`classify_command`). -/
structure Interaction where
  timestamp : ℚ
  user_input : String
  bot_response : String
  category : String
  parameters : List (String × String)
deriving DecidableEq, Repr

/-- `ConversationContext` dataclass. -/
structure ConversationContext where
  user_id : String
  session_id : String
  conversation_history : List Interaction := []
  current_topic : Option String := none
  last_command_category : Option CommandCategory := none
  active_parameters : List (String × String) := []
  context_timestamp : ℚ := 0
  preferences : List (String × String) := []
deriving DecidableEq, Repr

/-- `ClassificationResult` dataclass (timing fields are the measured
float durations, carried as exact rationals). -/
structure ClassificationResult where
  category : CommandCategory
  intent : String
  confidence : ℚ
  parameters : List (String × String) := []
  context_used : Bool := false
  preprocessing_time : ℚ := 0
  classification_time : ℚ := 0
  suggestions : List String := []
  raw_text : String := ""
  normalized_text : String := ""
deriving DecidableEq, Repr

/-- The mutable state of a `VoiceClassifier` instance. -/
structure VoiceClassifierState where
  context_cache : List (String × ConversationContext) := []
  classification_cache : List (String × ClassificationResult) := []
  cache_ttl : ℚ := 3600
  total_classifications : ℕ := 0
  cache_hits : ℕ := 0
deriving Repr

/-- The state of a freshly constructed `VoiceClassifier`. -/
def voiceClassifierInit : VoiceClassifierState := {}

/-- `VoiceClassifier.calculate_pattern_confidence`: `0.8` when any
category pattern matches, else `0` (categories without patterns score
`0`). -/
def calculate_pattern_confidence (b : ClassifierBackend) (text : String)
    (category : CommandCategory) : ℚ :=
  if (commandPatterns category).any (fun p => b.reSearch p text) then 0.8
  else 0

/-- `VoiceClassifier.calculate_similarity_confidence`: `0` when the
category has no examples, otherwise the similarity backend's cosine. -/
def calculate_similarity_confidence (b : ClassifierBackend) (text : String)
    (category : CommandCategory) : ℚ :=
  if (commandExamples category).isEmpty then 0
  else b.similarity text category

/-- One iteration of the category-scoring loop in `classify_command`:
`0.6·pattern + 0.4·similarity`, plus `0.1` context boost when the
context's last category equals this one. -/
def scoreCategory (b : ClassifierBackend) (normalized : String)
    (context : ConversationContext) (use_context : Bool)
    (category : CommandCategory) : ℚ :=
  let pattern_confidence := calculate_pattern_confidence b normalized category
  let similarity_confidence :=
    calculate_similarity_confidence b normalized category
  let combined := pattern_confidence * 0.6 + similarity_confidence * 0.4
  if use_context = true ∧ context.last_command_category = some category then
    combined + 0.1
  else combined

/-- The loop body: skip `UNKNOWN`, update the best triple on a strictly
greater combined confidence (so earlier categories win ties). -/
def classifyStep (b : ClassifierBackend) (normalized : String)
    (context : ConversationContext) (use_context : Bool)
    (best : CommandCategory × ℚ × List (String × String))
    (category : CommandCategory) :
    CommandCategory × ℚ × List (String × String) :=
  if category = .unknown then best
  else
    let combined := scoreCategory b normalized context use_context category
    if combined > best.2.1 then
      (category, combined, b.extractParams normalized category)
    else best

/-- The full scoring loop over the enum in declaration order, starting
from `(UNKNOWN, 0.0, {})`. -/
def bestCategory (b : ClassifierBackend) (normalized : String)
    (context : ConversationContext) (use_context : Bool) :
    CommandCategory × ℚ × List (String × String) :=
  CommandCategory.all.foldl (classifyStep b normalized context use_context)
    (.unknown, 0, [])

/-- `VoiceClassifier._generate_suggestions`. -/
def generate_suggestions (text : String) : List String :=
  let keywords := pySplit text
  let s₁ :=
    if keywords.any (fun w => w ∈ ["create", "make", "generate", "write"]) then
      ["Try: \x27Create a document about [topic]\x27",
       "Try: \x27Generate a PDF report on [subject]\x27"]
    else []
  let s₂ :=
    if keywords.any (fun w => w ∈ ["send", "email", "mail"]) then
      ["Try: \x27Send an email to [recipient] about [subject]\x27",
       "Try: \x27Compose a message to the team\x27"]
    else []
  let s₃ :=
    if keywords.any (fun w => w ∈ ["search", "find", "look"]) then
      ["Try: \x27Search for information about [topic]\x27",
       "Try: \x27Find details on [subject]\x27"]
    else []
  let s₄ :=
    if keywords.any (fun w => w ∈ ["schedule", "meeting", "appointment"]) then
      ["Try: \x27Schedule a meeting with [person] tomorrow\x27",
       "Try: \x27Book an appointment for [date/time]\x27"]
    else []
  let suggestions := s₁ ++ s₂ ++ s₃ ++ s₄
  let suggestions :=
    if suggestions.isEmpty then
      ["Try being more specific about what you want to do",
       "Use action words like \x27create\x27, \x27send\x27, \x27search\x27, or \x27schedule\x27",
       "Include details like recipients, topics, or dates"]
    else suggestions
  suggestions.take 3

/-- The cache key of `classify_command`:
`md5(text).hexdigest() + "_" + user_id + "_" + session_id`.  Note it is
built from the text digest, user and session only — `use_context` does
not enter the key. -/
def classify_cache_key (b : ClassifierBackend)
    (text user_id session_id : String) : String :=
  b.md5hex text ++ "_" ++ user_id ++ "_" ++ session_id

/-- The compute path of `classify_command` (cache miss or stale entry):
preprocess, get or create the per-`(user, session)` context, run the
scoring loop, attach suggestions when confidence `< 0.5`, update the
context (`last_command_category`, `active_parameters`, timestamp) and
store the result in the classification cache.  `now` is the wall-clock
instant, `dPre`/`dClass` the measured preprocessing and classification
durations (the code stores these durations in the result's timing
fields). -/
def classify_compute (b : ClassifierBackend) (st : VoiceClassifierState)
    (now dPre dClass : ℚ) (text user_id session_id : String)
    (use_context : Bool) (cache_key : String) :
    ClassificationResult × VoiceClassifierState :=
  let normalized := preprocess_text text
  let context_key := user_id ++ "_" ++ session_id
  let context := (alookup st.context_cache context_key).getD
    { user_id := user_id, session_id := session_id, context_timestamp := now }
  let best := bestCategory b normalized context use_context
  let result₀ : ClassificationResult :=
    { category := best.1
      intent := best.1.pyValue ++ "_intent"
      confidence := best.2.1
      parameters := best.2.2
      context_used := use_context
      preprocessing_time := dPre
      classification_time := dClass
      raw_text := text
      normalized_text := normalized }
  let result :=
    if result₀.confidence < 0.5 then
      { result₀ with suggestions := generate_suggestions normalized }
    else result₀
  let context' := { context with
    last_command_category := some best.1
    active_parameters := adictUpdate context.active_parameters best.2.2
    context_timestamp := now }
  (result,
   { st with
     context_cache := aset st.context_cache context_key context'
     classification_cache := aset st.classification_cache cache_key result
     total_classifications := st.total_classifications + 1 })

/-- `VoiceClassifier.classify_command`: look the key up in the
classification cache; a stored result is returned (counting a cache
hit) when `time.time() - cached.classification_time < cache_ttl` —
note `classification_time` holds the stored *duration* of the original
classification, not a timestamp.  Otherwise the compute path runs. -/
def classify_command (b : ClassifierBackend) (st : VoiceClassifierState)
    (now dPre dClass : ℚ) (text user_id session_id : String)
    (use_context : Bool) : ClassificationResult × VoiceClassifierState :=
  match alookup st.classification_cache
      (classify_cache_key b text user_id session_id) with
  | some cached =>
    if now - cached.classification_time < st.cache_ttl then
      (cached, { st with cache_hits := st.cache_hits + 1 })
    else
      classify_compute b st now dPre dClass text user_id session_id
        use_context (classify_cache_key b text user_id session_id)
  | none =>
    classify_compute b st now dPre dClass text user_id session_id
      use_context (classify_cache_key b text user_id session_id)

theorem classifyStep_skip (b : ClassifierBackend) (n : String)
    (ctx : ConversationContext) (uc : Bool)
    (best : CommandCategory × ℚ × List (String × String))
    (cat : CommandCategory)
    (h : cat ≠ .unknown → scoreCategory b n ctx uc cat ≤ best.2.1) :
    classifyStep b n ctx uc best cat = best := by
  unfold classifyStep
  by_cases h₁ : cat = CommandCategory.unknown
  · rw [if_pos h₁]
  · rw [if_neg h₁]
    dsimp only
    rw [if_neg (not_lt.mpr (h h₁))]

theorem bestFold_skip (b : ClassifierBackend) (n : String)
    (ctx : ConversationContext) (uc : Bool)
    (cats : List CommandCategory)
    (best : CommandCategory × ℚ × List (String × String))
    (h : ∀ cat ∈ cats, cat ≠ .unknown →
      scoreCategory b n ctx uc cat ≤ best.2.1) :
    cats.foldl (classifyStep b n ctx uc) best = best := by
  induction cats with
  | nil => rfl
  | cons c rest ih =>
    rw [List.foldl_cons,
      classifyStep_skip b n ctx uc best c (h c (List.mem_cons_self _ _))]
    exact ih (fun cat hcat => h cat (List.mem_cons_of_mem _ hcat))

theorem classify_compute_context_used (b : ClassifierBackend)
    (st : VoiceClassifierState) (now dPre dClass : ℚ)
    (text u s : String) (uc : Bool) (key : String) :
    (classify_compute b st now dPre dClass text u s uc key).1.context_used
      = uc := by
  unfold classify_compute
  dsimp only
  split_ifs <;> rfl

theorem classify_compute_classification_time (b : ClassifierBackend)
    (st : VoiceClassifierState) (now dPre dClass : ℚ)
    (text u s : String) (uc : Bool) (key : String) :
    (classify_compute b st now dPre dClass text u s uc
      key).1.classification_time = dClass := by
  unfold classify_compute
  dsimp only
  split_ifs <;> rfl

theorem classify_compute_state (b : ClassifierBackend)
    (st : VoiceClassifierState) (now dPre dClass : ℚ)
    (text u s : String) (uc : Bool) (key : String) :
    (classify_compute b st now dPre dClass text u s uc
        key).2.classification_cache
      = aset st.classification_cache key
          (classify_compute b st now dPre dClass text u s uc key).1 ∧
    (classify_compute b st now dPre dClass text u s uc key).2.cache_hits
      = st.cache_hits ∧
    (classify_compute b st now dPre dClass text u s uc
        key).2.total_classifications
      = st.total_classifications + 1 ∧
    (classify_compute b st now dPre dClass text u s uc key).2.cache_ttl
      = st.cache_ttl := by
  refine ⟨rfl, rfl, rfl, rfl⟩

/-- A concrete backend instantiation: `re.search` answers as the real
engine does on the inputs this file evaluates it on (on
`"hello there"` only the greeting pattern of `general_conversation`
matches, and no pattern matches the empty string); the similarity
backend is the pattern-only fallback the specification itself defines
for degraded mode (and exact for the empty string, whose TF-IDF vector
is zero); parameter extraction finds nothing in these inputs; the
digest is a fixed hex string (only key equality for equal texts
matters). -/
def cxBackend : ClassifierBackend :=
  { reSearch := fun p t =>
      p == "\\b(hello|hi|hey|good\\s+(morning|afternoon|evening))\\b"
        && t == "hello there"
    similarity := fun _ _ => 0
    extractParams := fun _ _ => []
    md5hex := fun _ => "d9ab8d8d7e6c4b7a0000000000000000" }

/-- Counterexample to claim C5 as stated: a call with
`use_context = false` is served, verbatim, the result stored by the
preceding call with `use_context = true` on the same
`(text, user, session)` — the two calls share one cache entry, because
the key is built from the text digest, user and session only. -/
theorem c5_counterexample :
    (classify_command cxBackend
        (classify_command cxBackend voiceClassifierInit 0 0 0
          "hello there" "u" "s" true).2
        1 0 0 "hello there" "u" "s" false).1
      = (classify_command cxBackend voiceClassifierInit 0 0 0
          "hello there" "u" "s" true).1 ∧
    (classify_command cxBackend voiceClassifierInit 0 0 0
        "hello there" "u" "s" true).1.context_used = true ∧
    (classify_command cxBackend
        (classify_command cxBackend voiceClassifierInit 0 0 0
          "hello there" "u" "s" true).2
        1 0 0 "hello there" "u" "s" false).2.cache_hits = 1 := by
  set call1 := classify_command cxBackend voiceClassifierInit 0 0 0
    "hello there" "u" "s" true with hcall1
  have hr1 : call1
      = classify_compute cxBackend voiceClassifierInit 0 0 0
          "hello there" "u" "s" true
          (classify_cache_key cxBackend "hello there" "u" "s") := by
    rw [hcall1]
    unfold classify_command
    rw [show alookup voiceClassifierInit.classification_cache
      (classify_cache_key cxBackend "hello there" "u" "s") = none from rfl]
  have hlookup : alookup call1.2.classification_cache
      (classify_cache_key cxBackend "hello there" "u" "s")
      = some call1.1 := by
    rw [hr1]
    rw [(classify_compute_state cxBackend voiceClassifierInit 0 0 0
      "hello there" "u" "s" true _).1]
    exact alookup_aset_self _ _ _
  have hfresh : (1 : ℚ) - call1.1.classification_time
      < call1.2.cache_ttl := by
    rw [hr1, classify_compute_classification_time,
      (classify_compute_state cxBackend voiceClassifierInit 0 0 0
        "hello there" "u" "s" true _).2.2.2]
    norm_num [voiceClassifierInit]
  have hr2 : classify_command cxBackend call1.2 1 0 0
      "hello there" "u" "s" false
      = (call1.1,
         { call1.2 with cache_hits := call1.2.cache_hits + 1 }) := by
    unfold classify_command
    rw [hlookup]
    dsimp only
    rw [if_pos hfresh]
  refine ⟨?_, ?_, ?_⟩
  · rw [hr2]
  · rw [hr1]
    exact classify_compute_context_used _ _ _ _ _ _ _ _ _ _
  · rw [hr2]
    simp only
    rw [hr1,
      (classify_compute_state cxBackend voiceClassifierInit 0 0 0
        "hello there" "u" "s" true _).2.1]
    rfl

/-- Claim C5 (amended): the classification cache key combines the text
digest with user and session but not `use_context`; any fresh cached
entry under that key is returned identically to calls with either value
of the flag, so calls that differ only in `use_context` share the cache
entry. -/
theorem c5_cache_key_ignores_use_context (b : ClassifierBackend)
    (st : VoiceClassifierState) (now dPre dClass : ℚ)
    (text user session : String) (b₁ b₂ : Bool)
    (cached : ClassificationResult)
    (hhit : alookup st.classification_cache
      (classify_cache_key b text user session) = some cached)
    (hfresh : now - cached.classification_time < st.cache_ttl) :
    classify_command b st now dPre dClass text user session b₁
      = (cached, { st with cache_hits := st.cache_hits + 1 }) ∧
    classify_command b st now dPre dClass text user session b₁
      = classify_command b st now dPre dClass text user session b₂ := by
  constructor
  · unfold classify_command
    rw [hhit]
    dsimp only
    rw [if_pos hfresh]
  · unfold classify_command
    rw [hhit]
    dsimp only
    rw [if_pos hfresh]
    rw [if_pos hfresh]

/-- A cached result used by the C5 witness. -/
def c5Cached : ClassificationResult :=
  { category := .general_conversation
    intent := "general_conversation_intent"
    confidence := 0
    context_used := true
    raw_text := "hello there"
    normalized_text := "hello there" }

/-- A classifier state holding `c5Cached` under the cache key of
`("hello there", "u", "s")`. -/
def c5State : VoiceClassifierState :=
  { classification_cache :=
      [(classify_cache_key cxBackend "hello there" "u" "s", c5Cached)] }

/-- Witness for C5's amended theorem: on `c5State`, calls with
`use_context = true` and `use_context = false` both return the stored
entry. -/
theorem c5_cache_key_ignores_use_context_witness :
    classify_command cxBackend c5State 1 0 0 "hello there" "u" "s" true
      = (c5Cached, { c5State with cache_hits := c5State.cache_hits + 1 }) ∧
    classify_command cxBackend c5State 1 0 0 "hello there" "u" "s" true
      = classify_command cxBackend c5State 1 0 0 "hello there" "u" "s"
          false :=
  c5_cache_key_ignores_use_context cxBackend c5State 1 0 0
    "hello there" "u" "s" true false c5Cached rfl
    (by norm_num [c5Cached, c5State])

/-- The `last_command_category` the classify loop will see for a
`(user, session)` pair: the stored context's value, or `none` for a
fresh context. -/
def contextLast (st : VoiceClassifierState) (user session : String) :
    Option CommandCategory :=
  match alookup st.context_cache (user ++ "_" ++ session) with
  | none => none
  | some ctx => ctx.last_command_category

theorem pattern_confidence_empty (b : ClassifierBackend)
    (hre : ∀ p, b.reSearch p "" = false) (cat : CommandCategory) :
    calculate_pattern_confidence b "" cat = 0 := by
  unfold calculate_pattern_confidence
  rw [if_neg]
  simp [hre]

theorem similarity_confidence_empty (b : ClassifierBackend)
    (hsim : ∀ c, b.similarity "" c = 0) (cat : CommandCategory) :
    calculate_similarity_confidence b "" cat = 0 := by
  unfold calculate_similarity_confidence
  split_ifs
  · rfl
  · exact hsim cat

theorem score_empty_no_boost (b : ClassifierBackend)
    (hre : ∀ p, b.reSearch p "" = false)
    (hsim : ∀ c, b.similarity "" c = 0)
    (ctx : ConversationContext) (uc : Bool)
    (hnb : uc = false ∨ ctx.last_command_category = none)
    (cat : CommandCategory) :
    scoreCategory b "" ctx uc cat = 0 := by
  unfold scoreCategory
  rw [pattern_confidence_empty b hre, similarity_confidence_empty b hsim]
  dsimp only
  rw [if_neg]
  · norm_num
  · rintro ⟨h₁, h₂⟩
    rcases hnb with h | h
    · rw [h] at h₁
      exact Bool.false_ne_true h₁
    · rw [h] at h₂
      exact Option.noConfusion h₂

/-- Claim C6 (amended): for every input whose normalized text is empty,
`classify_command` (computing fresh, i.e. on a cache miss) returns
category `unknown` with confidence `0` and a non-empty (three-element
generic) suggestions list — provided no context boost applies, that is,
`use_context` is false or the session's stored context has no
`last_command_category`.  (With `use_context = true` and a stored last
category, that category wins with confidence `0.1` instead.) -/
theorem c6_empty_text_classification (b : ClassifierBackend)
    (st : VoiceClassifierState) (now dPre dClass : ℚ)
    (text user session : String) (uc : Bool)
    (hnorm : preprocess_text text = "")
    (hre : ∀ p, b.reSearch p "" = false)
    (hsim : ∀ c, b.similarity "" c = 0)
    (hmiss : alookup st.classification_cache
      (classify_cache_key b text user session) = none)
    (hnb : uc = false ∨ contextLast st user session = none) :
    (classify_command b st now dPre dClass text user session uc).1.category
      = .unknown ∧
    (classify_command b st now dPre dClass text user session uc).1.confidence
      = 0 ∧
    (classify_command b st now dPre dClass text user session
      uc).1.suggestions = generate_suggestions "" ∧
    (classify_command b st now dPre dClass text user session
      uc).1.suggestions ≠ [] := by
  have hcc : classify_command b st now dPre dClass text user session uc
      = classify_compute b st now dPre dClass text user session uc
          (classify_cache_key b text user session) := by
    unfold classify_command
    rw [hmiss]
  have hnb' : uc = false ∨
      ((alookup st.context_cache (user ++ "_" ++ session)).getD
        { user_id := user, session_id := session,
          context_timestamp := now }).last_command_category = none := by
    rcases hnb with h | h
    · exact Or.inl h
    · right
      unfold contextLast at h
      cases hl : alookup st.context_cache (user ++ "_" ++ session) with
      | none => rfl
      | some ctx =>
        rw [hl] at h
        simpa using h
  have hbest : bestCategory b ""
      ((alookup st.context_cache (user ++ "_" ++ session)).getD
        { user_id := user, session_id := session, context_timestamp := now })
      uc = (.unknown, 0, []) := by
    unfold bestCategory
    exact bestFold_skip _ _ _ _ _ _
      (fun cat _ _ =>
        le_of_eq (score_empty_no_boost b hre hsim _ uc hnb' cat))
  have hres : (classify_compute b st now dPre dClass text user session uc
      (classify_cache_key b text user session)).1
      = { category := .unknown
          intent := "unknown_intent"
          confidence := 0
          parameters := []
          context_used := uc
          preprocessing_time := dPre
          classification_time := dClass
          suggestions := generate_suggestions ""
          raw_text := text
          normalized_text := "" } := by
    unfold classify_compute
    dsimp only
    rw [hnorm, hbest]
    dsimp only
    rw [if_pos (by norm_num : (0 : ℚ) < 0.5)]
    rfl
  rw [hcc, hres]
  refine ⟨rfl, rfl, rfl, ?_⟩
  show generate_suggestions "" ≠ []
  decide

/-- Witness for C6's amended theorem: the empty utterance with
`use_context = false` on a fresh classifier. -/
theorem c6_empty_text_classification_witness :
    (classify_command cxBackend voiceClassifierInit 7 0 0 "" "u" "s"
      false).1.category = .unknown ∧
    (classify_command cxBackend voiceClassifierInit 7 0 0 "" "u" "s"
      false).1.confidence = 0 ∧
    (classify_command cxBackend voiceClassifierInit 7 0 0 "" "u" "s"
      false).1.suggestions = generate_suggestions "" ∧
    (classify_command cxBackend voiceClassifierInit 7 0 0 "" "u" "s"
      false).1.suggestions ≠ [] :=
  c6_empty_text_classification cxBackend voiceClassifierInit 7 0 0
    "" "u" "s" false
    (by decide)
    (fun p => by
      show (_ && ("" == "hello there")) = false
      rw [show ("" == "hello there") = false from by decide]
      exact Bool.and_false _)
    (fun _ => rfl)
    rfl
    (Or.inl rfl)

/-- The stored context used by the C6 counterexample: the session's
previous turn was classified as `document_generation`. -/
def c6Ctx : ConversationContext :=
  { user_id := "u", session_id := "s",
    last_command_category := some .document_generation }

def c6State : VoiceClassifierState :=
  { context_cache := [("u_s", c6Ctx)] }

theorem c6_score_eval (cat : CommandCategory) :
    scoreCategory cxBackend "" c6Ctx true cat
      = (if c6Ctx.last_command_category = some cat then (0.1 : ℚ) else 0) := by
  unfold scoreCategory
  rw [pattern_confidence_empty cxBackend (fun p => by
      show (_ && ("" == "hello there")) = false
      rw [show ("" == "hello there") = false from by decide]
      exact Bool.and_false _),
    similarity_confidence_empty cxBackend (fun _ => rfl)]
  dsimp only
  by_cases hb : c6Ctx.last_command_category = some cat
  · rw [if_pos ⟨rfl, hb⟩, if_pos hb]
    norm_num
  · rw [if_neg (fun hc => hb hc.2), if_neg hb]
    norm_num

theorem c6_score_doc :
    scoreCategory cxBackend "" c6Ctx true .document_generation = 0.1 := by
  rw [c6_score_eval, if_pos (by decide)]

theorem c6_score_bound (cat : CommandCategory) :
    scoreCategory cxBackend "" c6Ctx true cat ≤ 0.1 := by
  rw [c6_score_eval]
  split_ifs
  · norm_num
  · norm_num

/-- Counterexample to claim C6 as stated: with a prior conversation
context whose last category is `document_generation` and
`use_context = true`, classifying the empty string returns
`document_generation` with confidence `0.1` — not `unknown` with
confidence `0` — because the context boost alone exceeds the zero
scores. -/
theorem c6_counterexample :
    (classify_command cxBackend c6State 5 0 0 "" "u" "s" true).1.category
      = .document_generation ∧
    (classify_command cxBackend c6State 5 0 0 "" "u" "s" true).1.category
      ≠ .unknown ∧
    (classify_command cxBackend c6State 5 0 0 "" "u" "s" true).1.confidence
      = 0.1 ∧
    (classify_command cxBackend c6State 5 0 0 "" "u" "s" true).1.confidence
      ≠ 0 := by
  have hctx : (alookup c6State.context_cache ("u" ++ "_" ++ "s")).getD
      { user_id := "u", session_id := "s", context_timestamp := 5 }
      = c6Ctx := rfl
  have h₁ : classifyStep cxBackend "" c6Ctx true (.unknown, 0, [])
      .general_conversation = (.unknown, 0, []) := by
    refine classifyStep_skip _ _ _ _ _ _ (fun _ => ?_)
    rw [c6_score_eval, if_neg (by decide)]
  have h₂ : classifyStep cxBackend "" c6Ctx true (.unknown, 0, [])
      .document_generation = (.document_generation, 0.1, []) := by
    unfold classifyStep
    rw [if_neg (by decide)]
    dsimp only
    rw [c6_score_doc]
    rw [if_pos (by norm_num : (0.1 : ℚ) > 0)]
    rfl
  have hbest : bestCategory cxBackend "" c6Ctx true
      = (.document_generation, 0.1, []) := by
    unfold bestCategory CommandCategory.all
    rw [List.foldl_cons, h₁, List.foldl_cons, h₂]
    exact bestFold_skip _ _ _ _ _ _ (fun cat _ _ => c6_score_bound cat)
  have hres : (classify_command cxBackend c6State 5 0 0 "" "u" "s" true).1
      = { category := .document_generation
          intent := "document_generation_intent"
          confidence := 0.1
          parameters := []
          context_used := true
          preprocessing_time := 0
          classification_time := 0
          suggestions := generate_suggestions ""
          raw_text := ""
          normalized_text := "" } := by
    have hmiss : alookup c6State.classification_cache
        (classify_cache_key cxBackend "" "u" "s") = none := rfl
    unfold classify_command
    rw [hmiss]
    unfold classify_compute
    dsimp only
    rw [show preprocess_text "" = "" from rfl, hctx, hbest]
    dsimp only
    rw [if_pos (by norm_num : (0.1 : ℚ) < 0.5)]
    rfl
  rw [hres]
  refine ⟨rfl, by decide, rfl, by norm_num⟩

/-- The greeting pattern of `general_conversation` — the only command
pattern that matches `"hello there"` under `re.search`. -/
def helloPattern : String :=
  "\\b(hello|hi|hey|good\\s+(morning|afternoon|evening))\\b"

theorem classify_compute_confidence (b : ClassifierBackend)
    (st : VoiceClassifierState) (now dPre dClass : ℚ)
    (text u s : String) (uc : Bool) (key : String) :
    (classify_compute b st now dPre dClass text u s uc key).1.confidence
      = (bestCategory b (preprocess_text text)
          ((alookup st.context_cache (u ++ "_" ++ s)).getD
            { user_id := u, session_id := s, context_timestamp := now })
          uc).2.1 := by
  unfold classify_compute
  dsimp only
  split_ifs <;> rfl

theorem classify_compute_context_cache (b : ClassifierBackend)
    (st : VoiceClassifierState) (now dPre dClass : ℚ)
    (text u s : String) (uc : Bool) (key : String) :
    (classify_compute b st now dPre dClass text u s uc key).2.context_cache
      = aset st.context_cache (u ++ "_" ++ s)
          (let context := (alookup st.context_cache (u ++ "_" ++ s)).getD
            { user_id := u, session_id := s, context_timestamp := now };
           let best := bestCategory b (preprocess_text text) context uc;
           { context with
             last_command_category := some best.1
             active_parameters :=
               adictUpdate context.active_parameters best.2.2
             context_timestamp := now }) := rfl

theorem pattern_confidence_hello_general (b : ClassifierBackend)
    (hre : ∀ p, b.reSearch p "hello there" = (p == helloPattern)) :
    calculate_pattern_confidence b "hello there" .general_conversation
      = 0.8 := by
  unfold calculate_pattern_confidence
  rw [if_pos]
  simp only [commandPatterns, List.any_cons, List.any_nil, hre]
  decide

theorem pattern_confidence_hello_other (b : ClassifierBackend)
    (hre : ∀ p, b.reSearch p "hello there" = (p == helloPattern))
    (cat : CommandCategory) (hcat : cat ≠ .general_conversation) :
    calculate_pattern_confidence b "hello there" cat = 0 := by
  unfold calculate_pattern_confidence
  rw [if_neg]
  cases cat <;>
    simp only [commandPatterns, List.any_cons, List.any_nil, hre] <;>
    first
      | (exact absurd rfl hcat)
      | decide

theorem similarity_confidence_bounds (b : ClassifierBackend)
    (hsim : ∀ t c, 0 ≤ b.similarity t c ∧ b.similarity t c ≤ 1)
    (t : String) (cat : CommandCategory) :
    0 ≤ calculate_similarity_confidence b t cat ∧
      calculate_similarity_confidence b t cat ≤ 1 := by
  unfold calculate_similarity_confidence
  split_ifs
  · exact ⟨le_refl 0, by norm_num⟩
  · exact hsim t cat

/-- On `"hello there"` the scoring loop always selects
`general_conversation`: its pattern score `0.8` dominates every other
category's similarity-only score, whatever the (bounded) similarity
backend returns. -/
theorem bestCategory_hello (b : ClassifierBackend)
    (hre : ∀ p, b.reSearch p "hello there" = (p == helloPattern))
    (hsim : ∀ t c, 0 ≤ b.similarity t c ∧ b.similarity t c ≤ 1)
    (ctx : ConversationContext)
    (hlast : ctx.last_command_category = none ∨
      ctx.last_command_category = some .general_conversation) :
    bestCategory b "hello there" ctx true
      = (.general_conversation,
         scoreCategory b "hello there" ctx true .general_conversation,
         b.extractParams "hello there" .general_conversation) := by
  have hsg := similarity_confidence_bounds b hsim "hello there"
    .general_conversation
  have hscore_ge : (0.48 : ℚ)
      ≤ scoreCategory b "hello there" ctx true .general_conversation := by
    unfold scoreCategory
    rw [pattern_confidence_hello_general b hre]
    dsimp only
    split_ifs
    · nlinarith [hsg.1]
    · nlinarith [hsg.1]
  have hscore_other : ∀ cat : CommandCategory,
      cat ≠ .general_conversation →
      scoreCategory b "hello there" ctx true cat ≤ 0.4 := by
    intro cat hcat
    have hsc := similarity_confidence_bounds b hsim "hello there" cat
    unfold scoreCategory
    rw [pattern_confidence_hello_other b hre cat hcat]
    dsimp only
    rw [if_neg]
    · nlinarith [hsc.2]
    · rintro ⟨-, h₂⟩
      rcases hlast with h | h
      · rw [h] at h₂
        exact Option.noConfusion h₂
      · rw [h] at h₂
        exact hcat (Option.some.inj h₂).symm
  have hstep : classifyStep b "hello there" ctx true (.unknown, 0, [])
      .general_conversation
      = (.general_conversation,
         scoreCategory b "hello there" ctx true .general_conversation,
         b.extractParams "hello there" .general_conversation) := by
    unfold classifyStep
    rw [if_neg (by decide)]
    dsimp only
    rw [if_pos (by nlinarith [hscore_ge])]
  unfold bestCategory CommandCategory.all
  rw [List.foldl_cons, hstep]
  refine bestFold_skip _ _ _ _ _ _ (fun cat hcat hne => ?_)
  have hng : cat ≠ .general_conversation := by
    intro h
    subst h
    revert hcat
    decide
  calc scoreCategory b "hello there" ctx true cat
      ≤ 0.4 := hscore_other cat hng
    _ ≤ 0.48 := by norm_num
    _ ≤ _ := hscore_ge

/-- Supporting theorem for C2 (the claim is right, the code is wrong):
two identical classify calls in immediate succession at any realistic
wall-clock time (`now ≥ 3601`, i.e. any instant after 1 Jan 1970
01:00:01 UTC, durations under a second) never hit the cache — the
freshness check compares `time.time()` against the stored
`classification_time`, which holds the measured *duration* of the first
classification, not a timestamp — and the recomputed second result
differs from the first: the first call stored
`last_command_category`, so the `+0.1` context boost raises the second
confidence. -/
theorem c2_second_call_recomputed_and_differs (b : ClassifierBackend)
    (hre : ∀ p, b.reSearch p "hello there" = (p == helloPattern))
    (hsim : ∀ t c, 0 ≤ b.similarity t c ∧ b.similarity t c ≤ 1)
    (now₁ now₂ dPre dClass : ℚ)
    (hd0 : 0 ≤ dClass) (hd1 : dClass ≤ 1)
    (ht1 : 3601 ≤ now₁) (ht2 : now₁ ≤ now₂) :
    (classify_command b
        (classify_command b voiceClassifierInit now₁ dPre dClass
          "hello there" "u1" "s1" true).2
        now₂ dPre dClass "hello there" "u1" "s1" true).2.cache_hits = 0 ∧
    (classify_command b
        (classify_command b voiceClassifierInit now₁ dPre dClass
          "hello there" "u1" "s1" true).2
        now₂ dPre dClass "hello there" "u1" "s1"
        true).2.total_classifications = 2 ∧
    (classify_command b
        (classify_command b voiceClassifierInit now₁ dPre dClass
          "hello there" "u1" "s1" true).2
        now₂ dPre dClass "hello there" "u1" "s1" true).1.confidence
      = (classify_command b voiceClassifierInit now₁ dPre dClass
          "hello there" "u1" "s1" true).1.confidence + 0.1 ∧
    (classify_command b
        (classify_command b voiceClassifierInit now₁ dPre dClass
          "hello there" "u1" "s1" true).2
        now₂ dPre dClass "hello there" "u1" "s1" true).1
      ≠ (classify_command b voiceClassifierInit now₁ dPre dClass
          "hello there" "u1" "s1" true).1 := by
  have hnorm : preprocess_text "hello there" = "hello there" := by decide
  set call1 := classify_command b voiceClassifierInit now₁ dPre dClass
    "hello there" "u1" "s1" true with hcall1
  have hr1 : call1
      = classify_compute b voiceClassifierInit now₁ dPre dClass
          "hello there" "u1" "s1" true
          (classify_cache_key b "hello there" "u1" "s1") := by
    rw [hcall1]
    unfold classify_command
    rw [show alookup voiceClassifierInit.classification_cache
      (classify_cache_key b "hello there" "u1" "s1") = none from rfl]
  have hctx1 : (alookup voiceClassifierInit.context_cache
      ("u1" ++ "_" ++ "s1")).getD
      { user_id := "u1", session_id := "s1", context_timestamp := now₁ }
      = { user_id := "u1", session_id := "s1",
          context_timestamp := now₁ } := rfl
  have hbest1 := bestCategory_hello b hre hsim
    { user_id := "u1", session_id := "s1", context_timestamp := now₁ }
    (Or.inl rfl)
  have hconf1 : call1.1.confidence
      = scoreCategory b "hello there"
          { user_id := "u1", session_id := "s1",
            context_timestamp := now₁ } true .general_conversation := by
    rw [hr1, classify_compute_confidence, hnorm, hctx1, hbest1]
  -- the second call misses the cache (duration mistaken for timestamp)
  have hlookup : alookup call1.2.classification_cache
      (classify_cache_key b "hello there" "u1" "s1") = some call1.1 := by
    rw [hr1,
      (classify_compute_state b voiceClassifierInit now₁ dPre dClass
        "hello there" "u1" "s1" true _).1]
    exact alookup_aset_self _ _ _
  have hstale : ¬(now₂ - call1.1.classification_time
      < call1.2.cache_ttl) := by
    rw [hr1, classify_compute_classification_time,
      (classify_compute_state b voiceClassifierInit now₁ dPre dClass
        "hello there" "u1" "s1" true _).2.2.2]
    show ¬(now₂ - dClass < voiceClassifierInit.cache_ttl)
    rw [show voiceClassifierInit.cache_ttl = 3600 from rfl]
    push_neg
    linarith
  have hr2 : classify_command b call1.2 now₂ dPre dClass
      "hello there" "u1" "s1" true
      = classify_compute b call1.2 now₂ dPre dClass
          "hello there" "u1" "s1" true
          (classify_cache_key b "hello there" "u1" "s1") := by
    unfold classify_command
    rw [hlookup]
    dsimp only
    rw [if_neg hstale]
  -- the second call sees the stored context with the boosted category
  have hctxcache : call1.2.context_cache
      = aset voiceClassifierInit.context_cache ("u1" ++ "_" ++ "s1")
          { user_id := "u1", session_id := "s1",
            last_command_category := some .general_conversation
            active_parameters := adictUpdate []
              (b.extractParams "hello there" .general_conversation)
            context_timestamp := now₁ } := by
    rw [hr1, classify_compute_context_cache]
    dsimp only
    rw [hnorm, hctx1, hbest1]
  have hctx2 : (alookup call1.2.context_cache ("u1" ++ "_" ++ "s1")).getD
      { user_id := "u1", session_id := "s1", context_timestamp := now₂ }
      = { user_id := "u1", session_id := "s1",
          last_command_category := some .general_conversation
          active_parameters := adictUpdate []
            (b.extractParams "hello there" .general_conversation)
          context_timestamp := now₁ } := by
    rw [hctxcache, alookup_aset_self]
    rfl
  have hbest2 := bestCategory_hello b hre hsim
    { user_id := "u1", session_id := "s1",
      last_command_category := some .general_conversation
      active_parameters := adictUpdate []
        (b.extractParams "hello there" .general_conversation)
      context_timestamp := now₁ }
    (Or.inr rfl)
  have hconf2 : (classify_command b call1.2 now₂ dPre dClass
      "hello there" "u1" "s1" true).1.confidence
      = scoreCategory b "hello there"
          { user_id := "u1", session_id := "s1",
            last_command_category := some .general_conversation
            active_parameters := adictUpdate []
              (b.extractParams "hello there" .general_conversation)
            context_timestamp := now₁ } true .general_conversation := by
    rw [hr2, classify_compute_confidence, hnorm, hctx2, hbest2]
  have hboost : scoreCategory b "hello there"
      { user_id := "u1", session_id := "s1",
        last_command_category := some .general_conversation
        active_parameters := adictUpdate []
          (b.extractParams "hello there" .general_conversation)
        context_timestamp := now₁ } true .general_conversation
      = scoreCategory b "hello there"
          { user_id := "u1", session_id := "s1",
            context_timestamp := now₁ } true .general_conversation
        + 0.1 := by
    unfold scoreCategory
    dsimp only
    rw [if_pos ⟨rfl, rfl⟩, if_neg]
    rintro ⟨-, h₂⟩
    exact Option.noConfusion h₂
  refine ⟨?_, ?_, ?_, ?_⟩
  · rw [hr2,
      (classify_compute_state b call1.2 now₂ dPre dClass
        "hello there" "u1" "s1" true _).2.1,
      hr1,
      (classify_compute_state b voiceClassifierInit now₁ dPre dClass
        "hello there" "u1" "s1" true _).2.1]
    rfl
  · rw [hr2,
      (classify_compute_state b call1.2 now₂ dPre dClass
        "hello there" "u1" "s1" true _).2.2.1,
      hr1,
      (classify_compute_state b voiceClassifierInit now₁ dPre dClass
        "hello there" "u1" "s1" true _).2.2.1]
    rfl
  · rw [hconf2, hboost, hconf1]
  · intro heq
    have h := hconf2
    rw [heq, hconf1, hboost] at h
    linarith [h]

/-- Witness for C2's supporting theorem at the concrete backend and the
instants `now₁ = 10000`, `now₂ = 10001`. -/
theorem c2_second_call_recomputed_and_differs_witness :
    (classify_command cxBackend
        (classify_command cxBackend voiceClassifierInit 10000 0 0
          "hello there" "u1" "s1" true).2
        10001 0 0 "hello there" "u1" "s1" true).2.cache_hits = 0 ∧
    (classify_command cxBackend
        (classify_command cxBackend voiceClassifierInit 10000 0 0
          "hello there" "u1" "s1" true).2
        10001 0 0 "hello there" "u1" "s1"
        true).2.total_classifications = 2 ∧
    (classify_command cxBackend
        (classify_command cxBackend voiceClassifierInit 10000 0 0
          "hello there" "u1" "s1" true).2
        10001 0 0 "hello there" "u1" "s1" true).1.confidence
      = (classify_command cxBackend voiceClassifierInit 10000 0 0
          "hello there" "u1" "s1" true).1.confidence + 0.1 ∧
    (classify_command cxBackend
        (classify_command cxBackend voiceClassifierInit 10000 0 0
          "hello there" "u1" "s1" true).2
        10001 0 0 "hello there" "u1" "s1" true).1
      ≠ (classify_command cxBackend voiceClassifierInit 10000 0 0
          "hello there" "u1" "s1" true).1 :=
  c2_second_call_recomputed_and_differs cxBackend
    (fun p => by
      show ((p == helloPattern) && ("hello there" == "hello there"))
        = (p == helloPattern)
      rw [show ("hello there" == "hello there") = true from rfl]
      exact Bool.and_true _)
    (fun _ _ => ⟨le_refl 0, by show (0 : ℚ) ≤ 1; norm_num⟩)
    10000 10001 0 0 (le_refl 0) (by norm_num) (by norm_num) (by norm_num)

/- ### Advanced intent resolution (`ai/advanced_voice_processor.py`) — C3 -/

/-- `re.search(p, text, re.IGNORECASE)` for the complexity regexes,
each of which is an alternation of literal phrases between `\b`
boundaries: the pattern matches iff some alternative occurs as a whole
word/phrase in the lower-cased text. -/
def regexAltsMatch (alts : List String) (text : String) : Bool :=
  alts.any (fun a => containsWord a (pyLower text))

/-- `AdvancedVoiceProcessor._analyze_command_complexity`: scan for
sequential, then conditional, then iterative, then compound markers
(each regex represented by its alternative list). -/
def analyze_command_complexity (text : String) : CommandComplexity :=
  let sequential_patterns : List (List String) :=
    [["then", "next", "after", "followed by", "and then"],
     ["first", "second", "third", "finally"],
     ["step by step", "one by one"]]
  let conditional_patterns : List (List String) :=
    [["if", "when", "unless", "provided that"],
     ["depending on", "based on", "in case"]]
  let compound_patterns : List (List String) :=
    [["and", "also", "plus", "additionally"],
     ["both", "all", "multiple"]]
  let iterative_patterns : List (List String) :=
    [["for each", "every", "all", "repeat"],
     ["loop", "iterate", "multiple times"]]
  if sequential_patterns.any (fun p => regexAltsMatch p text) then
    .sequential
  else if conditional_patterns.any (fun p => regexAltsMatch p text) then
    .conditional
  else if iterative_patterns.any (fun p => regexAltsMatch p text) then
    .iterative
  else if compound_patterns.any (fun p => regexAltsMatch p text) then
    .compound
  else
    .simple

/-- `AdvancedVoiceProcessor._estimate_workflow_steps`: a base count per
complexity, plus the raw substring counts of `"and"` and `"then"`,
capped at 10. -/
def estimate_workflow_steps (text : String) (complexity : CommandComplexity) :
    Nat :=
  let base : Nat :=
    match complexity with
    | .simple => 1
    | .compound => 2
    | .sequential => 3
    | .conditional => 3
    | .iterative => 4
  let step_count := if strContains text "and" then
    base + countSubstr text "and" else base
  let step_count := if strContains text "then" then
    step_count + countSubstr text "then" else step_count
  min step_count 10

/-- `AdvancedVoiceProcessor._identify_required_parameters(self,
category)` — note the signature takes only `category`. -/
def identify_required_parameters (category : CommandCategory) :
    List String :=
  match category with
  | .document_generation => ["content_topic", "format"]
  | .email_management => ["recipient", "subject"]
  | .calendar_scheduling => ["date_time", "attendees"]
  | .web_search => ["query"]
  | .reminders => ["task", "time"]
  | .calculations => ["expression"]
  | _ => []

/-- `IntentResolutionResult` dataclass. -/
structure IntentResolutionResult where
  primary_intent : String
  confidence : ℚ
  alternative_intents : List (String × ℚ)
  complexity : CommandComplexity
  estimated_steps : Nat
  parameters_needed : List String
  context_dependencies : List String
  workflow_template : Option String := none
  resolution_time : ℚ := 0
deriving DecidableEq, Repr

/-- The `try` body of `_resolve_advanced_intent`, as an
exception-carrying computation.  (The transformer branch is irrelevant
to the outcome: whether or not `self.intent_classifier` is set, the
body aborts below.)  After computing the complexity and the step
estimate, the source calls
`self._identify_required_parameters(text, basic_classification.category)`
— two positional arguments to a method declared as
`_identify_required_parameters(self, category)` — which raises
`TypeError` in Python, modelled here as the error value this
computation returns. -/
def resolve_advanced_intent_body (text : String)
    (basic : ClassificationResult) : Except String IntentResolutionResult :=
  let primary_intent := basic.intent
  let confidence := basic.confidence
  let complexity := analyze_command_complexity text
  let estimated_steps := estimate_workflow_steps text complexity
  let _ := primary_intent
  let _ := confidence
  let _ := complexity
  let _ := estimated_steps
  .error "TypeError: _identify_required_parameters() takes 2 positional arguments but 3 were given"

/-- `AdvancedVoiceProcessor._resolve_advanced_intent`: the body always
raises, and the `except Exception` handler returns the fallback result
— complexity `SIMPLE`, one estimated step, no template. -/
def resolve_advanced_intent (text : String) (basic : ClassificationResult)
    (resolution_time : ℚ) : IntentResolutionResult :=
  match resolve_advanced_intent_body text basic with
  | .ok r => r
  | .error _ =>
    { primary_intent := basic.intent
      confidence := basic.confidence
      alternative_intents := []
      complexity := .simple
      estimated_steps := 1
      parameters_needed := []
      context_dependencies := []
      workflow_template := none
      resolution_time := resolution_time }

/-- The template keyword table of `_match_workflow_template`. -/
def template_keywords : List (String × List String) :=
  [("document_creation_workflow",
    ["create document", "generate report", "write document"]),
   ("email_campaign_workflow",
    ["email campaign", "send emails", "mass email"]),
   ("meeting_coordination_workflow",
    ["schedule meeting", "coordinate meeting", "organize meeting"]),
   ("research_compilation_workflow",
    ["research", "compile information", "gather data"])]

/-- `AdvancedVoiceProcessor._match_workflow_template` (the `category`
argument is accepted but unused by the source). -/
def match_workflow_template (text : String) (_category : CommandCategory) :
    Option String :=
  ((template_keywords.find?
    (fun kv => kv.2.any (fun k => strContains (pyLower text) k))).map
    Prod.fst)

/-- The step lists of the predefined workflow templates
(`_initialize_workflow_templates`): command name and category value. -/
def workflow_templates : List (String × List (String × CommandCategory)) :=
  [("document_creation_workflow",
    [("gather_document_requirements", .document_generation),
     ("create_document_outline", .document_generation),
     ("generate_document_content", .document_generation),
     ("format_document", .document_generation),
     ("review_and_finalize", .document_generation)]),
   ("email_campaign_workflow",
    [("define_email_audience", .email_management),
     ("create_email_template", .email_management),
     ("personalize_email_content", .email_management),
     ("schedule_email_delivery", .email_management),
     ("track_email_metrics", .email_management)]),
   ("meeting_coordination_workflow",
    [("identify_meeting_participants", .calendar_scheduling),
     ("find_available_time_slots", .calendar_scheduling),
     ("send_meeting_invites", .calendar_scheduling),
     ("prepare_meeting_agenda", .document_generation),
     ("setup_meeting_room", .system_control)]),
   ("research_compilation_workflow",
    [("define_research_scope", .web_search),
     ("conduct_web_research", .web_search),
     ("analyze_research_findings", .general_conversation),
     ("compile_research_report", .document_generation),
     ("create_presentation_summary", .document_generation)])]

/-- `AdvancedVoiceProcessor._detect_multi_step_workflow`: no workflow
when `estimated_steps ≤ 1` and no template matched; otherwise a
workflow built from the template's steps (whose parameter maps are
empty, since the template step definitions carry no `"parameters"`
key) or a dynamic plan of `estimated_steps` generic steps carrying all
resolved parameters. -/
def detect_multi_step_workflow (intent_result : IntentResolutionResult)
    (parameters : List AdvancedParameter) (workflow_id : String)
    (text user_id session_id : String) (now : ℚ) :
    Option MultiStepWorkflow :=
  if intent_result.estimated_steps ≤ 1 ∧
      intent_result.workflow_template = none then
    none
  else
    let steps : List CommandStep :=
      match intent_result.workflow_template.bind
        (fun t => alookup workflow_templates t) with
      | some tsteps =>
        (tsteps.enum).map (fun sd =>
          { step_id := workflow_id ++ "_step_" ++ toString sd.1
            command := sd.2.1
            category := sd.2.2
            parameters := [] })
      | none =>
        (List.range intent_result.estimated_steps).map (fun i =>
          { step_id := workflow_id ++ "_step_" ++ toString i
            command := "step_" ++ toString i ++ "_"
              ++ intent_result.primary_intent
            category := .general_conversation
            parameters := parameters.map (fun p => (p.name, p)) })
    some
      { workflow_id := workflow_id
        user_id := user_id
        session_id := session_id
        original_command := text
        complexity := intent_result.complexity
        steps := steps
        created_at := now
        updated_at := now
        total_estimated_time := (intent_result.estimated_steps : ℚ) * 30 }

/-- The claim's concrete utterance. -/
def c3Text : String :=
  "schedule a meeting with Sarah tomorrow then send the invite"

/-- A basic classification for the utterance (only `intent` and
`confidence` flow into the fallback result, so the other fields are
immaterial to the demonstrated behavior). -/
def c3Basic : ClassificationResult :=
  { category := .calendar_scheduling
    intent := "calendar_scheduling_intent"
    confidence := 0.48
    raw_text := c3Text }

/-- Supporting theorem for C3 (the claim is right, the code is wrong):
the complexity analyzer does classify the utterance as `sequential`
with an estimate of 4 ≥ 2 steps — the behavior the claim and the spec
describe — but `_resolve_advanced_intent` aborts on its ill-typed call
to `_identify_required_parameters` (two positional arguments to a
one-argument method) and its exception handler downgrades every input
to complexity `simple` with `estimated_steps = 1` and no template, so
`_detect_multi_step_workflow` creates no workflow at all. -/
theorem c3_sequential_workflow_code_bug :
    analyze_command_complexity c3Text = .sequential ∧
    estimate_workflow_steps c3Text .sequential = 4 ∧
    2 ≤ estimate_workflow_steps c3Text .sequential ∧
    resolve_advanced_intent_body c3Text c3Basic
      = .error "TypeError: _identify_required_parameters() takes 2 positional arguments but 3 were given" ∧
    (resolve_advanced_intent c3Text c3Basic 0).complexity = .simple ∧
    (resolve_advanced_intent c3Text c3Basic 0).estimated_steps = 1 ∧
    detect_multi_step_workflow (resolve_advanced_intent c3Text c3Basic 0)
      [] "wf-c3" c3Text "u2" "s2" 0 = none := by
  refine ⟨by decide, by decide, by decide, rfl, rfl, rfl, ?_⟩
  unfold detect_multi_step_workflow
  rw [if_pos ⟨by decide, rfl⟩]
